import Mathlib

/-!
Verification of the Stock_counting resource-and-consistency subsystem.

This file shallowly embeds the sync services and the connection pool of the
repository and proves/refutes the specified properties about them.

Embedded source files:
- `backend/services/erp_sync_service.py`  (namespace `ErpSync`)
- `backend/services/sql_sync_service.py`  (namespace `SqlSync`)
- `backend/services/connection_pool.py`   (namespace `Pool`)

Modelling conventions:
- MongoDB documents are association lists of field name to BSON-like value;
  `update_one` with a set-map is a field-level merge on the first document
  matching the `item_code` filter; `insert_one` appends.
- Python floats are modelled as exact rationals (ℚ).  `datetime.utcnow()` is
  an abstract tick `now : Nat` passed into each operation; all calls to
  `utcnow` inside one per-item step return the same tick.
- Python exceptions inside a per-item step are modelled by an `Option PyErr`
  component in the step's result; mutations performed before the raise are
  kept (Python mutates the shared stats dict in place).  A value that is not
  a number (and not a bool) raises `TypeError` when used in float arithmetic,
  as in Python; numeric strings are not modelled.
- The asyncio batch concurrency (semaphore over batches) is modelled as
  sequential composition of the batches; every counter increment is atomic
  on the single-threaded event loop and items are otherwise independent.
- The SQL Server connector (`backend/sql_server_connector.py`) is not under
  `src/`; per the spec its `getAllRecords` returns an ordered sequence of
  typed raw records, modelled by `SqlItem` (a `dict.get` with a default on an
  absent key is modelled by the default value of the structure field).
-/

namespace StockSync

set_option allowUnsafeReducibility true
attribute [local semireducible] Rat.sub Rat.add Rat.mul Rat.inv

/-- BSON-like values stored in MongoDB documents. -/
inductive BsonValue where
  | str (s : String)
  | num (q : ℚ)
  | bool (b : Bool)
  | time (t : Nat)
  | null
  | list (l : List String)
deriving DecidableEq

/-- A MongoDB document: an association list of field name to value. -/
abbrev Doc := List (String × BsonValue)

/-- Projection `doc.get(k)` / projection of one field of a document. -/
def getField (d : Doc) (k : String) : Option BsonValue :=
  (d.find? (fun p => p.1 == k)).map (fun p => p.2)

/-- Lookup `doc.get(k, default)`. -/
def getFieldD (d : Doc) (k : String) (v : BsonValue) : BsonValue :=
  (getField d k).getD v

/-- Set one field of a document (insert or overwrite). -/
def setField (d : Doc) (k : String) (v : BsonValue) : Doc :=
  if d.any (fun p => p.1 == k) then
    d.map (fun p => if p.1 == k then (k, v) else p)
  else d ++ [(k, v)]

/-- MongoDB `$set`: a field-level merge that sets exactly the listed fields
and leaves every other field of the document untouched. -/
def applySet (d : Doc) (fs : List (String × BsonValue)) : Doc :=
  fs.foldl (fun acc kv => setField acc kv.1 kv.2) d

/-- The `erp_items` collection. -/
abbrev Collection := List Doc

/-- Query `find_one({"item_code": code})`: first document whose `item_code` is
the given string. -/
def findOne (c : Collection) (code : String) : Option Doc :=
  c.find? (fun d => decide (getField d "item_code" = some (.str code)))

/-- Write `update_one({"item_code": code}, {"$set": fs})`: merge `fs` into the first
matching document.  Returns the new collection and the `modified_count`
(1 when a document matched and its content actually changed, else 0). -/
def updateOne : Collection → String → List (String × BsonValue) → Collection × Nat
  | [], _, _ => ([], 0)
  | d :: rest, code, fs =>
    if getField d "item_code" = some (.str code) then
      let d' := applySet d fs
      (d' :: rest, if d' = d then 0 else 1)
    else
      let r := updateOne rest code fs
      (d :: r.1, r.2)

/-- Write `insert_one`. -/
def insertOne (c : Collection) (d : Doc) : Collection := c ++ [d]

/-- Python exceptions that can escape a per-item sync step. -/
inductive PyErr where
  | typeError
  | valueError
deriving DecidableEq

/-- Using a stored value in float arithmetic: numbers are themselves, bools
coerce (`True` is 1.0), anything else raises `TypeError` (`none`). -/
def toNum : BsonValue → Option ℚ
  | .num q => some q
  | .bool b => some (if b then 1 else 0)
  | _ => none

/-- Python `abs` on a float. -/
def pyAbs (q : ℚ) : ℚ := if q < 0 then -q else q

/-- The float-noise tolerance `0.001` used by the quantity comparison. -/
def eps : ℚ := mkRat 1 1000

/-- A raw record returned by the SQL Server connector.
Modelled from the spec: `getAllRecords() -> ordered sequence of RawRecord`
with fields `key, name, quantity, category, subcategory, warehouse, unitCode,
unitName, barcode, mrp?`; the connector module itself is not under `src/`.
A `dict.get` with a default is modelled by the structure-field default. -/
structure SqlItem where
  item_code : String
  item_name : String := ""
  barcode : String := ""
  category : String := "General"
  subcategory : String := ""
  warehouse : String := "Main"
  uom_code : String := ""
  uom_name : String := ""
  stock_qty : ℚ := 0
  mrp : Option ℚ := none
deriving DecidableEq

/-- Per-run counters of `erp_sync_service.SQLSyncService.sync_items`
(`items_checked`, `items_updated`, `items_unchanged`, `items_created`,
`errors`); modelled as the delta contributed by a (partial) run, added into
the shared mutable stats dict. -/
structure ErpDelta where
  checked : Nat := 0
  updated : Nat := 0
  unchanged : Nat := 0
  created : Nat := 0
  errors : Nat := 0
deriving DecidableEq

/-- Pointwise addition of counter deltas (the shared stats dict accumulates
increments). -/
def ErpDelta.add (a b : ErpDelta) : ErpDelta :=
  { checked := a.checked + b.checked
    updated := a.updated + b.updated
    unchanged := a.unchanged + b.unchanged
    created := a.created + b.created
    errors := a.errors + b.errors }

namespace ErpSync

open StockSync

/-- The `$set` field map of `_update_existing_item` (erp_sync_service.py
lines 148-159). -/
def updateFields (sql_qty : ℚ) (now : Nat) : List (String × BsonValue) :=
  [("sql_server_qty", .num sql_qty),
   ("stock_qty", .num sql_qty),
   ("last_synced", .time now),
   ("qty_changed", .bool true),
   ("qty_change_detected_at", .time now)]

/-- Read `existing_item.get("sql_server_qty", existing_item.get("stock_qty", 0.0))`
(erp_sync_service.py line 144). -/
def oldQty (d : Doc) : BsonValue :=
  match getField d "sql_server_qty" with
  | some v => v
  | none =>
    match getField d "stock_qty" with
    | some v => v
    | none => .num 0

/-- Method `SQLSyncService._update_existing_item` (erp_sync_service.py lines
140-165): update the quantity only when it moved by more than 0.001, counting
the item as updated only when the write actually modified the document;
otherwise count it as unchanged with no write at all.  Comparing `sql_qty`
with a non-numeric stored value raises `TypeError`. -/
def updateExistingItem (item_code : String) (existing : Doc) (sql_qty : ℚ)
    (db : Collection) (now : Nat) : Collection × ErpDelta × Option PyErr :=
  match toNum (oldQty existing) with
  | none => (db, {}, some .typeError)
  | some old_qty =>
    if pyAbs (sql_qty - old_qty) > eps then
      let r := updateOne db item_code (updateFields sql_qty now)
      (r.1, { updated := if r.2 > 0 then 1 else 0 }, none)
    else
      (db, { unchanged := 1 }, none)

/-- The document built by `SQLSyncService._create_new_item`
(erp_sync_service.py lines 171-202). -/
def newItemDoc (it : SqlItem) (sql_qty : ℚ) (now : Nat) : Doc :=
  [("item_code", .str it.item_code),
   ("item_name", .str it.item_name),
   ("barcode", .str it.barcode),
   ("sql_server_qty", .num sql_qty),
   ("stock_qty", .num sql_qty),
   ("category", .str it.category),
   ("subcategory", .str it.subcategory),
   ("warehouse", .str it.warehouse),
   ("uom_code", .str it.uom_code),
   ("uom_name", .str it.uom_name),
   ("serial_number", .null),
   ("mrp", .num (it.mrp.getD 0)),
   ("hsn_code", .null),
   ("location", .null),
   ("condition", .null),
   ("synced_at", .time now),
   ("last_synced", .time now),
   ("synced_from_sql", .bool true),
   ("created_at", .time now),
   ("data_complete", .bool false),
   ("completion_percentage", .num 0),
   ("enrichment_history", .list []),
   ("verified", .bool false),
   ("verified_by", .null),
   ("verified_at", .null),
   ("verification_status", .str "pending")]

/-- Method `SQLSyncService._create_new_item` (erp_sync_service.py lines 167-206). -/
def createNewItem (it : SqlItem) (sql_qty : ℚ) (db : Collection) (now : Nat) :
    Collection × ErpDelta × Option PyErr :=
  (insertOne db (newItemDoc it sql_qty now), { created := 1 }, none)

/-- Method `SQLSyncService._process_item` (erp_sync_service.py lines 123-138):
an empty or missing item code is counted as an error before any store access;
otherwise the item is counted as checked and dispatched to update/create. -/
def processItem (it : SqlItem) (db : Collection) (now : Nat) :
    Collection × ErpDelta × Option PyErr :=
  if it.item_code = "" then
    (db, { errors := 1 }, none)
  else
    let sql_qty := it.stock_qty
    match findOne db it.item_code with
    | some existing =>
      let r := updateExistingItem it.item_code existing sql_qty db now
      (r.1, { r.2.1 with checked := r.2.1.checked + 1 }, r.2.2)
    | none =>
      let r := createNewItem it sql_qty db now
      (r.1, { r.2.1 with checked := r.2.1.checked + 1 }, r.2.2)

/-- The per-item `try`/`except` of `SQLSyncService._process_batch`
(erp_sync_service.py lines 115-121): an escaping exception is absorbed and
counted in `errors`. -/
def caught (r : Collection × ErpDelta × Option PyErr) : Collection × ErpDelta :=
  (r.1, if r.2.2.isSome then { r.2.1 with errors := r.2.1.errors + 1 } else r.2.1)

/-- One item inside a batch, threading the collection and the shared stats. -/
def stepItem (now : Nat) (acc : Collection × ErpDelta) (it : SqlItem) :
    Collection × ErpDelta :=
  let r := caught (processItem it acc.1 now)
  (r.1, acc.2.add r.2)

/-- Method `SQLSyncService._process_batch` (erp_sync_service.py lines 113-121). -/
def processBatch (now : Nat) (acc : Collection × ErpDelta) (batch : List SqlItem) :
    Collection × ErpDelta :=
  batch.foldl (stepItem now) acc

/-- Partition into batches of `n + 1` items (`sync_items` uses
`batch_size = 100`, i.e. `chunks 99`). -/
def chunks (n : Nat) : List SqlItem → List (List SqlItem)
  | [] => []
  | x :: xs => (x :: xs.take n) :: chunks n (xs.drop n)
termination_by l => l.length
decreasing_by simp; omega

/-- The batched body of `SQLSyncService.sync_items` (erp_sync_service.py
lines 66-100): partition the snapshot into batches of 100 and process them
(the bounded-concurrency gather is modelled as sequential composition). -/
def syncItems (items : List SqlItem) (db : Collection) (now : Nat) :
    Collection × ErpDelta :=
  (chunks 99 items).foldl (processBatch now) (db, {})

/-- Method `SQLSyncService.sync_items` including the connection guard
(erp_sync_service.py lines 53-54): raises when the source is unreachable. -/
def runFullSync (connOk : Bool) (items : List SqlItem) (db : Collection)
    (now : Nat) : Except Unit (Collection × ErpDelta) :=
  if connOk then .ok (syncItems items db now) else .error ()

end ErpSync

/-- Per-run counters of `sql_sync_service.SQLSyncService.sync_quantities_only`
(`items_checked`, `qty_updated`, `items_created`, `qty_changes_detected`,
`errors`); note this variant has no unchanged counter. -/
structure SqlDelta where
  items_checked : Nat := 0
  qty_updated : Nat := 0
  items_created : Nat := 0
  qty_changes_detected : Nat := 0
  errors : Nat := 0
deriving DecidableEq

/-- Pointwise addition of counter deltas. -/
def SqlDelta.add (a b : SqlDelta) : SqlDelta :=
  { items_checked := a.items_checked + b.items_checked
    qty_updated := a.qty_updated + b.qty_updated
    items_created := a.items_created + b.items_created
    qty_changes_detected := a.qty_changes_detected + b.qty_changes_detected
    errors := a.errors + b.errors }

namespace SqlSync

/-- The document built for a new item by `sync_quantities_only`
(sql_sync_service.py lines 97-126). -/
def newItemDoc (it : SqlItem) (sql_qty : ℚ) (now : Nat) : Doc :=
  [("item_code", .str it.item_code),
   ("item_name", .str it.item_name),
   ("category", .str it.category),
   ("subcategory", .str it.subcategory),
   ("warehouse", .str it.warehouse),
   ("uom_code", .str it.uom_code),
   ("uom_name", .str it.uom_name),
   ("stock_qty", .num sql_qty),
   ("sql_server_qty", .num sql_qty),
   ("serial_number", .null),
   ("mrp", .null),
   ("hsn_code", .null),
   ("barcode", .str it.barcode),
   ("location", .null),
   ("condition", .null),
   ("data_complete", .bool false),
   ("completion_percentage", .num 0),
   ("missing_fields", .list ["serial_number", "mrp", "hsn_code"]),
   ("enrichment_history", .list []),
   ("last_synced", .time now),
   ("qty_changed_at", .null),
   ("created_at", .time now),
   ("updated_at", .time now),
   ("synced_from_sql", .bool true)]

/-- The `$set` field map of the changed-quantity write of
`sync_quantities_only` (sql_sync_service.py lines 141-150). -/
def updateFields (sql_qty mongo_qty : ℚ) (now : Nat) : List (String × BsonValue) :=
  [("stock_qty", .num sql_qty),
   ("sql_server_qty", .num sql_qty),
   ("last_synced", .time now),
   ("qty_changed_at", .time now),
   ("qty_change_delta", .num (sql_qty - mongo_qty)),
   ("updated_at", .time now)]

/-- The per-item `try` body of `SQLSyncService.sync_quantities_only`
(sql_sync_service.py lines 86-172): create missing items, update the
quantity on an exact (not epsilon-tolerant) inequality, otherwise touch only
the sync timestamp; `items_checked` is incremented last, so a raising item
contributes nothing but the error count.
Reading `float(mongo_item.get("stock_qty", 0.0))` of a non-numeric stored
value raises `TypeError`. -/
def processItem (it : SqlItem) (db : Collection) (now : Nat) :
    Collection × SqlDelta × Option PyErr :=
  let item_code := it.item_code
  let sql_qty := it.stock_qty
  match findOne db item_code with
  | none =>
    (insertOne db (newItemDoc it sql_qty now),
     { items_created := 1, items_checked := 1 }, none)
  | some mongo_item =>
    match toNum (getFieldD mongo_item "stock_qty" (.num 0)) with
    | none => (db, {}, some .typeError)
    | some mongo_qty =>
      if sql_qty ≠ mongo_qty then
        let r := updateOne db item_code (updateFields sql_qty mongo_qty now)
        (r.1, { qty_changes_detected := 1, qty_updated := 1, items_checked := 1 },
         none)
      else
        let r := updateOne db item_code [("last_synced", .time now)]
        (r.1, { items_checked := 1 }, none)

/-- The per-item `except` of `sync_quantities_only` (sql_sync_service.py
lines 173-175). -/
def caught (r : Collection × SqlDelta × Option PyErr) : Collection × SqlDelta :=
  (r.1,
   if r.2.2.isSome then { r.2.1 with errors := r.2.1.errors + 1 } else r.2.1)

/-- One item of a batch of `sync_quantities_only`. -/
def stepItem (now : Nat) (acc : Collection × SqlDelta) (it : SqlItem) :
    Collection × SqlDelta :=
  let r := caught (processItem it acc.1 now)
  (r.1, acc.2.add r.2)

/-- The batched item loop of `SQLSyncService.sync_quantities_only`
(sql_sync_service.py lines 82-175).  The `sync_metadata` bookkeeping upsert
at lines 192-203 targets a separate collection and is outside the
reconciliation modelled here. -/
def syncQuantitiesOnly (items : List SqlItem) (db : Collection) (now : Nat) :
    Collection × SqlDelta :=
  items.foldl (stepItem now) (db, {})

/-- The `$set` field map of the realtime changed-quantity write
(sql_sync_service.py lines 267-275). -/
def rtUpdateFields (sql_qty mongo_qty : ℚ) (now : Nat) :
    List (String × BsonValue) :=
  [("stock_qty", .num sql_qty),
   ("sql_server_qty", .num sql_qty),
   ("last_checked", .time now),
   ("qty_changed_at", .time now),
   ("qty_change_delta", .num (sql_qty - mongo_qty))]

/-- Result dictionary of `SQLSyncService.check_item_qty_realtime`.
The `sql_qty` field holds the raw value the code puts there
(`mongo_item.get("stock_qty")` on the cached path, the SQL quantity
otherwise). -/
structure RtResult where
  item_code : String
  sql_qty : Option BsonValue
  previous_qty : Option ℚ := none
  delta : Option ℚ := none
  updated : Bool
  source : String
  message : String
deriving DecidableEq

/-- Method `SQLSyncService.check_item_qty_realtime` (sql_sync_service.py
lines 213-305).  `connOk` is the result of `test_connection()`; `getItem`
is the connector's `get_item_by_code`.  Returns the possibly-updated
collection, the returned dictionary (when the call returns) and the raised
exception (when it raises). -/
def checkItemQtyRealtime (connOk : Bool) (getItem : String → Option SqlItem)
    (item_code : String) (db : Collection) (now : Nat) :
    Collection × Option RtResult × Option PyErr :=
  if ¬connOk then
    match findOne db item_code with
    | some mongo_item =>
      (db,
       some { item_code := item_code
              sql_qty := getField mongo_item "stock_qty"
              updated := false
              source := "mongodb_cache"
              message := "SQL Server unavailable, using cached data" },
       none)
    | none => (db, none, some .valueError)
  else
    match getItem item_code with
    | none => (db, none, some .valueError)
    | some sql_item =>
      let sql_qty := sql_item.stock_qty
      match findOne db item_code with
      | none =>
        (db,
         some { item_code := item_code
                sql_qty := some (.num sql_qty)
                updated := false
                source := "sql_server"
                message := "Item not in MongoDB yet" },
         none)
      | some mongo_item =>
        match toNum (getFieldD mongo_item "stock_qty" (.num 0)) with
        | none => (db, none, some .typeError)
        | some mongo_qty =>
          if sql_qty ≠ mongo_qty then
            let r := updateOne db item_code (rtUpdateFields sql_qty mongo_qty now)
            (r.1,
             some { item_code := item_code
                    sql_qty := some (.num sql_qty)
                    previous_qty := some mongo_qty
                    delta := some (sql_qty - mongo_qty)
                    updated := true
                    source := "sql_server"
                    message := "Quantity updated from SQL Server" },
             none)
          else
            let r := updateOne db item_code [("last_checked", .time now)]
            (r.1,
             some { item_code := item_code
                    sql_qty := some (.num sql_qty)
                    updated := false
                    source := "sql_server"
                    message := "Quantity unchanged" },
             none)

end SqlSync

namespace Pool

/-- Configuration of `SQLServerConnectionPool` (connection_pool.py lines
26-46): base size, maximum overflow, and the age-based recycle threshold in
seconds (`recycle=0` is falsy in Python). -/
structure PoolCfg where
  pool_size : Nat
  max_overflow : Nat
  recycle : Nat
deriving DecidableEq

/-- Maximum number of simultaneously active connections:
`pool_size + max_overflow` (the idle queue is also bounded by it). -/
def capacity (cfg : PoolCfg) : Nat := cfg.pool_size + cfg.max_overflow

/-- State of `SQLServerConnectionPool`.  Connections are identified by
numbers (Python `id(conn)`); `idle` is the FIFO `self._pool` of
`(connection, timestamp)` pairs, `checked_out` models the
`self._checked_out` id-to-checkout-time dict, `active` is
`self._active_connections`, `next_id` generates fresh connection ids, and
`createdAt` is a ghost history recording each connection's creation tick
(never read by any operation; used only to state age properties). -/
structure PoolState where
  idle : List (Nat × Nat)
  checked_out : List (Nat × Nat)
  active : Nat
  next_id : Nat
  createdAt : List (Nat × Nat)
deriving DecidableEq

/-- Dict write `self._checked_out[id(conn)] = time`. -/
def coInsert (co : List (Nat × Nat)) (i t : Nat) : List (Nat × Nat) :=
  if co.any (fun p => p.1 == i) then
    co.map (fun p => if p.1 == i then (i, t) else p)
  else (i, t) :: co

/-- Dict delete `del self._checked_out[id(conn)]` (no-op when absent). -/
def coRemove (co : List (Nat × Nat)) (i : Nat) : List (Nat × Nat) :=
  co.filter (fun p => p.1 != i)

/-- Ghost lookup: the creation tick of a connection id. -/
def createdAtOf (s : PoolState) (i : Nat) : Option Nat :=
  (s.createdAt.find? (fun p => p.1 == i)).map (fun p => p.2)

/-- Method `_create_and_track_connection` (connection_pool.py lines
111-117): create a fresh connection, increment the active count and mark it
checked out. -/
def createAndTrack (s : PoolState) (now : Nat) : Nat × PoolState :=
  (s.next_id,
   { idle := s.idle
     checked_out := coInsert s.checked_out s.next_id now
     active := s.active + 1
     next_id := s.next_id + 1
     createdAt := (s.next_id, now) :: s.createdAt })

/-- Method `_discard_connection` (connection_pool.py lines 119-130): close,
drop from the checked-out dict if present, and decrement the active count
when positive (Nat subtraction models the guard). -/
def discardConn (s : PoolState) (i : Nat) : PoolState :=
  { s with checked_out := coRemove s.checked_out i, active := s.active - 1 }

/-- Method `_validate_and_refresh` (connection_pool.py lines 132-154) on a
connection popped from the idle queue with its stored timestamp: recycle it
when `self.recycle` is truthy (nonzero) and its stamp age exceeds the
threshold, replace it when invalid, else mark it checked out.  Returns the
connection handed to the caller, the age of that connection's pool stamp at
hand-over (0 for a fresh connection), and the new state.  `valid` is the
oracle result of `_is_connection_valid`. -/
def validateAndRefresh (cfg : PoolCfg) (s : PoolState) (conn stamp now : Nat)
    (valid : Bool) : Nat × Nat × PoolState :=
  if cfg.recycle ≠ 0 ∧ now - stamp > cfg.recycle then
    ((createAndTrack (discardConn s conn) now).1, 0,
     (createAndTrack (discardConn s conn) now).2)
  else if ¬valid then
    ((createAndTrack (discardConn s conn) now).1, 0,
     (createAndTrack (discardConn s conn) now).2)
  else
    (conn, now - stamp, { s with checked_out := coInsert s.checked_out conn now })

/-- Result of one pass of the `_get_connection` loop. -/
inductive AcqResult where
  | got (conn age : Nat) (s : PoolState)
  | blocked
deriving DecidableEq

/-- Projection of the connection returned by an acquire pass. -/
def acqConn : AcqResult → Option Nat
  | .got c _ _ => some c
  | .blocked => none

/-- Projection of the stamp age of the connection returned by an acquire
pass. -/
def acqAge : AcqResult → Option Nat
  | .got _ a _ => some a
  | .blocked => none

/-- One pass of the `_get_connection` loop (connection_pool.py lines
160-181): pop an idle connection and validate/refresh it; on an empty queue
create an overflow connection only when the active count is strictly below
capacity; otherwise back off (`blocked`: the pass changes nothing and the
loop retries until the deadline, then raises `TimeoutError`). -/
def acquireStep (cfg : PoolCfg) (s : PoolState) (now : Nat) (valid : Bool) :
    AcqResult :=
  match s.idle with
  | (conn, stamp) :: rest =>
    .got (validateAndRefresh cfg { s with idle := rest } conn stamp now valid).1
      (validateAndRefresh cfg { s with idle := rest } conn stamp now valid).2.1
      (validateAndRefresh cfg { s with idle := rest } conn stamp now valid).2.2
  | [] =>
    if s.active < capacity cfg then
      .got (createAndTrack s now).1 0 (createAndTrack s now).2
    else .blocked

/-- Method `_return_connection` (connection_pool.py lines 183-202): a
connection that is not checked out is ignored; otherwise it is removed from
the checked-out dict and re-enqueued idle with a fresh timestamp when valid
and the queue has room, else discarded. -/
def returnConnection (cfg : PoolCfg) (s : PoolState) (conn now : Nat)
    (valid : Bool) : PoolState :=
  if ¬ s.checked_out.any (fun p => p.1 == conn) then s
  else
    if valid then
      if s.idle.length < capacity cfg then
        { s with checked_out := coRemove s.checked_out conn,
                 idle := s.idle ++ [(conn, now)] }
      else discardConn { s with checked_out := coRemove s.checked_out conn } conn
    else discardConn { s with checked_out := coRemove s.checked_out conn } conn

/-- Method `close_all` (connection_pool.py lines 222-233): drain and close
the idle queue, clear the checked-out dict, zero the active count. -/
def closeAll (s : PoolState) : PoolState :=
  { s with idle := [], checked_out := [], active := 0 }

/-- Method `_initialize_pool` (connection_pool.py lines 99-109) after `k`
successful creations (a creation failure stops the loop early, so
`k ≤ pool_size`): `k` connections enqueued idle with creation stamps,
active count `k`. -/
def initPool (k t0 : Nat) : PoolState :=
  { idle := (List.range k).map (fun i => (i, t0))
    checked_out := []
    active := k
    next_id := k
    createdAt := (List.range k).map (fun i => (i, t0)) }

/-- The operations a pool state can undergo after construction.  Each locked
region of the source is one atomic step; `now`, `valid` and the released
connection id are environment choices. -/
inductive PoolStep (cfg : PoolCfg) : PoolState → PoolState → Prop where
  | acquire (s : PoolState) (now : Nat) (valid : Bool) (conn age : Nat)
      (s' : PoolState) :
      acquireStep cfg s now valid = .got conn age s' → PoolStep cfg s s'
  | release (s : PoolState) (conn now : Nat) (valid : Bool) :
      PoolStep cfg s (returnConnection cfg s conn now valid)
  | closeAllStep (s : PoolState) : PoolStep cfg s (closeAll s)

/-- States reachable from a freshly constructed pool. -/
def Reachable (cfg : PoolCfg) (k t0 : Nat) (s : PoolState) : Prop :=
  Relation.ReflTransGen (PoolStep cfg) (initPool k t0) s

/-- The counting invariant of the pool: the active count is bounded by
capacity, and the idle and checked-out populations never exceed it. -/
def PoolInv (cfg : PoolCfg) (s : PoolState) : Prop :=
  s.active ≤ capacity cfg ∧
  s.idle.length + s.checked_out.length ≤ s.active

end Pool

/-- A source item is settled in a collection for the erp_sync_service run
when re-processing it can only take the error or the unchanged branch:
its code is empty, or its document exists and the stored quantity read is
either non-numeric (raises again) or within the tolerance of the source
quantity. -/
def erpSettled (db : Collection) (it : SqlItem) : Prop :=
  it.item_code = "" ∨
  ∃ d, findOne db it.item_code = some d ∧
    (toNum (ErpSync.oldQty d) = none ∨
     ∃ q, toNum (ErpSync.oldQty d) = some q ∧ pyAbs (it.stock_qty - q) ≤ eps)

/-- A source item is settled in a collection for the sql_sync_service run
when re-processing it can only take the error or the timestamp-only branch:
its document exists and the stored quantity is either non-numeric (raises
again) or exactly the source quantity. -/
def sqlSettled (db : Collection) (it : SqlItem) : Prop :=
  ∃ d, findOne db it.item_code = some d ∧
    (toNum (getFieldD d "stock_qty" (.num 0)) = none ∨
     toNum (getFieldD d "stock_qty" (.num 0)) = some it.stock_qty)

/-- Concrete source snapshot with a duplicated key (quantity 5 then 7 for
the same item code). -/
def dupItems : List SqlItem :=
  [{ item_code := "A", stock_qty := 5 }, { item_code := "A", stock_qty := 7 }]

/-- Concrete existing document whose stored quantity already equals the
source quantity, with a stale sync timestamp. -/
def tsDoc : Doc :=
  [("item_code", .str "A"), ("stock_qty", .num 5), ("last_synced", .time 0)]

/-- Concrete existing document of spec Scenario B: stored quantity 8 and an
enrichment field `mrp = 100`. -/
def scenBDoc : Doc :=
  [("item_code", .str "X1"), ("stock_qty", .num 8),
   ("sql_server_qty", .num 8), ("mrp", .num 100)]

/-- Concrete source record of spec Scenario B (`key="X1", quantity=10`). -/
def scenBItem : SqlItem := { item_code := "X1", stock_qty := 10 }

/-- Concrete source record carrying an `mrp` value from SQL Server. -/
def mrpItem : SqlItem := { item_code := "N1", stock_qty := 3, mrp := some 100 }

/-- Concrete cached document of spec Scenario C (`{quantity:8}`). -/
def scenCDoc : Doc := [("item_code", .str "X1"), ("stock_qty", .num 8)]

/-- Concrete document whose stored quantity is a string, so that per-item
processing raises `TypeError` in float arithmetic. -/
def badDoc : Doc := [("item_code", .str "B"), ("stock_qty", .str "oops")]

/-- Concrete source record hitting `badDoc`. -/
def badItem : SqlItem := { item_code := "B", stock_qty := 4 }

/-- Concrete healthy source record for fault-isolation runs. -/
def goodItem : SqlItem := { item_code := "G", stock_qty := 2 }

/-- Pool configuration with the age-based recycling disabled by a zero
threshold (`recycle=0` is falsy in Python). -/
def cfgZero : Pool.PoolCfg := { pool_size := 1, max_overflow := 0, recycle := 0 }

/-- Pool configuration with a positive recycle threshold of 10 ticks. -/
def cfgTen : Pool.PoolCfg := { pool_size := 1, max_overflow := 0, recycle := 10 }

/-- Pool state after one-connection initialization at tick 0 and a first
acquire at tick 5 under `cfgTen`. -/
def poolAfterAcq : Pool.PoolState :=
  { idle := [], checked_out := [(0, 5)], active := 1, next_id := 1,
    createdAt := [(0, 0)] }

/-- Pool state after releasing connection 0 back at tick 9: the idle stamp
is refreshed to the release tick, not the creation tick. -/
def poolAfterRel : Pool.PoolState :=
  Pool.returnConnection cfgTen poolAfterAcq 0 9 true

/-- Enrichment fields of an inventory document: owned by human/API editors,
never by the sync engine (spec section 3, glossary). -/
def enrichmentFields : List String :=
  ["serial_number", "mrp", "hsn_code", "location", "condition",
   "verified", "verified_by", "verified_at", "verification_status",
   "data_complete", "completion_percentage", "missing_fields",
   "enrichment_history"]

/-- Authoritative fields of an inventory document.
Modelled from the spec: the field group owned exclusively by the sync engine
(quantity, sync-lineage flags and sync metadata; spec section 3). -/
def authoritativeFields : List String :=
  ["stock_qty", "sql_server_qty", "last_synced", "last_checked",
   "qty_changed", "qty_changed_at", "qty_change_detected_at",
   "qty_change_delta", "updated_at", "synced_at", "synced_from_sql",
   "created_at"]

theorem getField_cons (k k' : String) (v : BsonValue) (d : Doc) :
    getField ((k, v) :: d) k' = if k = k' then some v else getField d k' := by
  simp only [getField, List.find?_cons]
  by_cases h : k = k'
  · simp [h]
  · have hb : (k == k') = false := by simp [h]
    simp [hb, h]

theorem getField_append (d₁ d₂ : Doc) (k : String) :
    getField (d₁ ++ d₂) k = (getField d₁ k).or (getField d₂ k) := by
  simp only [getField, List.find?_append]
  cases d₁.find? (fun p => p.1 == k) <;> simp

theorem getField_eq_none_of_not_any (d : Doc) (k : String)
    (h : d.any (fun p => p.1 == k) = false) : getField d k = none := by
  have hf : d.find? (fun p => p.1 == k) = none := by
    rw [List.find?_eq_none]
    intro p hp
    have := List.any_eq_false.mp h p hp
    simpa using this
  simp [getField, hf]

theorem getField_map_set (d : Doc) (k : String) (v : BsonValue)
    (h : d.any (fun p => p.1 == k) = true) :
    getField (d.map (fun p => if (p.1 == k) = true then (k, v) else p)) k
      = some v := by
  induction d with
  | nil => simp at h
  | cons p rest ih =>
    rcases p with ⟨k1, v1⟩
    by_cases hp : k1 = k
    · subst hp
      simp [getField_cons]
    · have hpb : ((k1 : String) == k) = false := by simp [hp]
      simp only [List.any_cons, hpb, Bool.false_or] at h
      simp only [List.map_cons]
      rw [show (if (((k1, v1) : String × BsonValue).1 == k) = true
            then (k, v) else (k1, v1)) = (k1, v1) from by simp [hpb]]
      rw [getField_cons, if_neg hp]
      exact ih h

theorem getField_map_set_ne (d : Doc) (k : String) (v : BsonValue) (k' : String)
    (h : k' ≠ k) :
    getField (d.map (fun p => if (p.1 == k) = true then (k, v) else p)) k'
      = getField d k' := by
  induction d with
  | nil => rfl
  | cons p rest ih =>
    rcases p with ⟨k1, v1⟩
    by_cases hp : k1 = k
    · subst hp
      simp only [List.map_cons, if_pos (by simp : ((k1, v1) : String × BsonValue).1 == k1)]
      rw [getField_cons, getField_cons, if_neg (fun hh => h hh.symm),
        if_neg (fun hh => h hh.symm)]
      exact ih
    · have hpb : ((k1 : String) == k) = false := by simp [hp]
      simp only [List.map_cons]
      rw [show (if (((k1, v1) : String × BsonValue).1 == k) = true
            then (k, v) else (k1, v1)) = (k1, v1) from by simp [hpb]]
      rw [getField_cons, getField_cons]
      by_cases hk1 : k1 = k'
      · simp [hk1]
      · rw [if_neg hk1, if_neg hk1]
        exact ih

theorem getField_setField_self (d : Doc) (k : String) (v : BsonValue) :
    getField (setField d k v) k = some v := by
  unfold setField
  split
  · next h => exact getField_map_set d k v h
  · next h =>
    rw [getField_append, getField_eq_none_of_not_any d k
      (by rwa [Bool.not_eq_true] at h)]
    simp [getField_cons]

theorem getField_setField_ne (d : Doc) (k : String) (v : BsonValue)
    (k' : String) (h : k' ≠ k) :
    getField (setField d k v) k' = getField d k' := by
  unfold setField
  split
  · exact getField_map_set_ne d k v k' h
  · rw [getField_append]
    rw [show getField [(k, v)] k' = none from by
      rw [getField_cons, if_neg (fun hh => h hh.symm)]; rfl]
    exact Option.or_none

theorem getField_applySet (d : Doc) (fs : List (String × BsonValue))
    (k : String) :
    getField (applySet d fs) k
      = ((fs.reverse.find? (fun p => p.1 == k)).map (fun p => p.2)).or
          (getField d k) := by
  induction fs generalizing d with
  | nil => simp [applySet]
  | cons a fs ih =>
    rcases a with ⟨k1, v1⟩
    show getField (applySet (setField d k1 v1) fs) k = _
    rw [ih]
    rw [List.reverse_cons, List.find?_append]
    cases hf : fs.reverse.find? (fun p => p.1 == k) with
    | some p => simp
    | none =>
      simp only [Option.map_none, Option.none_or]
      by_cases hk : k1 = k
      · subst hk
        simp [getField_setField_self]
      · have : ((k1 : String) == k) = false := by simp [hk]
        simp [List.find?, this, getField_setField_ne d k1 v1 k
          (fun hh => hk hh.symm)]

theorem getField_applySet_not_mem (d : Doc) (fs : List (String × BsonValue))
    (k : String) (h : k ∉ fs.map Prod.fst) :
    getField (applySet d fs) k = getField d k := by
  rw [getField_applySet]
  rw [show fs.reverse.find? (fun p => p.1 == k) = none from ?_]
  · simp
  · rw [List.find?_eq_none]
    intro p hp
    simp only [List.mem_reverse] at hp
    have hne : p.1 ≠ k := fun hh => h (List.mem_map.mpr ⟨p, hp, hh⟩)
    simpa using hne

theorem findOne_cons (d : Doc) (db : Collection) (code : String) :
    findOne (d :: db) code =
      if getField d "item_code" = some (.str code) then some d
      else findOne db code := by
  simp only [findOne, List.find?_cons]
  by_cases h : getField d "item_code" = some (.str code)
  · simp [h]
  · simp [h]

theorem updateOne_of_findOne_none (db : Collection) (code : String)
    (fs : List (String × BsonValue)) (h : findOne db code = none) :
    updateOne db code fs = (db, 0) := by
  induction db with
  | nil => rfl
  | cons d rest ih =>
    rw [findOne_cons] at h
    by_cases hd : getField d "item_code" = some (.str code)
    · rw [if_pos hd] at h; exact absurd h (by simp)
    · rw [if_neg hd] at h
      simp only [updateOne]
      rw [if_neg hd]
      simp [ih h]

theorem findOne_updateOne_self (db : Collection) (code : String)
    (fs : List (String × BsonValue)) (d : Doc)
    (hkey : "item_code" ∉ fs.map Prod.fst)
    (h : findOne db code = some d) :
    findOne (updateOne db code fs).1 code = some (applySet d fs) := by
  induction db with
  | nil => simp [findOne] at h
  | cons d0 rest ih =>
    rw [findOne_cons] at h
    by_cases hd : getField d0 "item_code" = some (.str code)
    · rw [if_pos hd] at h
      injection h with h
      subst h
      simp only [updateOne]
      rw [if_pos hd]
      rw [findOne_cons, if_pos (by rw [getField_applySet_not_mem _ _ _ hkey]; exact hd)]
    · rw [if_neg hd] at h
      simp only [updateOne]
      rw [if_neg hd]
      rw [findOne_cons, if_neg hd]
      exact ih h

theorem findOne_updateOne_ne (db : Collection) (code : String)
    (fs : List (String × BsonValue)) (c' : String)
    (hkey : "item_code" ∉ fs.map Prod.fst) (hne : c' ≠ code) :
    findOne (updateOne db code fs).1 c' = findOne db c' := by
  induction db with
  | nil => rfl
  | cons d0 rest ih =>
    by_cases hd : getField d0 "item_code" = some (.str code)
    · simp only [updateOne]
      rw [if_pos hd]
      rw [findOne_cons, findOne_cons]
      rw [getField_applySet_not_mem _ _ _ hkey, hd]
      have hne' : some (BsonValue.str code) ≠ some (.str c') := by
        simp only [ne_eq, Option.some.injEq, BsonValue.str.injEq]
        exact fun hh => hne hh.symm
      rw [if_neg hne', if_neg hne']
    · simp only [updateOne]
      rw [if_neg hd]
      rw [findOne_cons, findOne_cons]
      by_cases hc : getField d0 "item_code" = some (.str c')
      · rw [if_pos hc, if_pos hc]
      · rw [if_neg hc, if_neg hc]
        exact ih

theorem updateOne_modified (db : Collection) (code : String)
    (fs : List (String × BsonValue)) (d : Doc)
    (h : findOne db code = some d) :
    (updateOne db code fs).2 = if applySet d fs = d then 0 else 1 := by
  induction db with
  | nil => simp [findOne] at h
  | cons d0 rest ih =>
    rw [findOne_cons] at h
    by_cases hd : getField d0 "item_code" = some (.str code)
    · rw [if_pos hd] at h
      injection h with h
      subst h
      simp only [updateOne]
      rw [if_pos hd]
    · rw [if_neg hd] at h
      simp only [updateOne]
      rw [if_neg hd]
      simpa using ih h

theorem findOne_insertOne (db : Collection) (d : Doc) (c : String) :
    findOne (insertOne db d) c = (findOne db c).or
      (if getField d "item_code" = some (.str c) then some d else none) := by
  simp only [findOne, insertOne, List.find?_append]
  congr 1
  by_cases h : getField d "item_code" = some (.str c)
  · simp [List.find?, h]
  · simp [List.find?, h]

theorem erpDelta_add_empty (a : ErpDelta) : a.add {} = a := rfl

theorem erpDelta_empty_add (a : ErpDelta) : ErpDelta.add {} a = a := by
  cases a
  simp [ErpDelta.add]

theorem erpDelta_add_assoc (a b c : ErpDelta) :
    (a.add b).add c = a.add (b.add c) := by
  simp [ErpDelta.add, Nat.add_assoc]

theorem erpDelta_add_comm (a b : ErpDelta) : a.add b = b.add a := by
  simp [ErpDelta.add, Nat.add_comm]

theorem sqlDelta_add_empty (a : SqlDelta) : a.add {} = a := rfl

theorem sqlDelta_empty_add (a : SqlDelta) : SqlDelta.add {} a = a := by
  cases a
  simp [SqlDelta.add]

theorem sqlDelta_add_assoc (a b c : SqlDelta) :
    (a.add b).add c = a.add (b.add c) := by
  simp [SqlDelta.add, Nat.add_assoc]

theorem sqlDelta_add_comm (a b : SqlDelta) : a.add b = b.add a := by
  simp [SqlDelta.add, Nat.add_comm]

theorem chunks_flatten (n : Nat) (l : List SqlItem) :
    (ErpSync.chunks n l).flatten = l := by
  generalize hm : l.length = m
  induction m using Nat.strong_induction_on generalizing l with
  | _ m ih =>
    cases l with
    | nil => simp [ErpSync.chunks]
    | cons x xs =>
      rw [ErpSync.chunks]
      simp only [List.flatten_cons]
      rw [ih (xs.drop n).length ?_ (xs.drop n) rfl]
      · rw [List.cons_append, List.take_append_drop]
      · subst hm
        simp only [List.length_drop, List.length_cons]
        omega

theorem syncItems_eq_foldl (items : List SqlItem) (db : Collection)
    (now : Nat) :
    ErpSync.syncItems items db now
      = items.foldl (ErpSync.stepItem now) (db, {}) := by
  unfold ErpSync.syncItems
  rw [show ErpSync.processBatch now
      = fun acc batch => batch.foldl (ErpSync.stepItem now) acc from rfl]
  rw [← List.foldl_flatten, chunks_flatten]

theorem erp_stepItem_acc (now : Nat) (x : SqlItem) (db : Collection)
    (b : ErpDelta) :
    ErpSync.stepItem now (db, b) x
      = ((ErpSync.stepItem now (db, {}) x).1,
         b.add (ErpSync.stepItem now (db, {}) x).2) := by
  simp [ErpSync.stepItem, erpDelta_empty_add]

theorem erp_foldl_acc (now : Nat) (l : List SqlItem) (db : Collection)
    (a : ErpDelta) :
    l.foldl (ErpSync.stepItem now) (db, a)
      = ((l.foldl (ErpSync.stepItem now) (db, {})).1,
         a.add (l.foldl (ErpSync.stepItem now) (db, {})).2) := by
  induction l generalizing db a with
  | nil => simp [erpDelta_add_empty]
  | cons x xs ih =>
    simp only [List.foldl_cons]
    rw [erp_stepItem_acc now x db a, erp_stepItem_acc now x db {}]
    rw [erpDelta_empty_add]
    rw [ih (ErpSync.stepItem now (db, {}) x).1 ((ErpSync.stepItem now (db, {}) x).2)]
    rw [ih (ErpSync.stepItem now (db, {}) x).1
      (ErpDelta.add a (ErpSync.stepItem now (db, {}) x).2)]
    rw [erpDelta_add_assoc]

theorem erp_processItem_empty (it : SqlItem) (db : Collection) (now : Nat)
    (h : it.item_code = "") :
    ErpSync.processItem it db now = (db, { errors := 1 }, none) := by
  simp [ErpSync.processItem, h]

theorem erp_processItem_typeErr (it : SqlItem) (db : Collection) (now : Nat)
    (existing : Doc) (hc : it.item_code ≠ "")
    (hf : findOne db it.item_code = some existing)
    (ht : toNum (ErpSync.oldQty existing) = none) :
    ErpSync.processItem it db now = (db, { checked := 1 }, some .typeError) := by
  simp [ErpSync.processItem, hc, hf, ErpSync.updateExistingItem, ht]

theorem erp_processItem_unchanged (it : SqlItem) (db : Collection) (now : Nat)
    (existing : Doc) (q : ℚ) (hc : it.item_code ≠ "")
    (hf : findOne db it.item_code = some existing)
    (hq : toNum (ErpSync.oldQty existing) = some q)
    (hle : pyAbs (it.stock_qty - q) ≤ eps) :
    ErpSync.processItem it db now
      = (db, { checked := 1, unchanged := 1 }, none) := by
  simp [ErpSync.processItem, hc, hf, ErpSync.updateExistingItem, hq,
    not_lt.mpr hle]

theorem erp_processItem_update (it : SqlItem) (db : Collection) (now : Nat)
    (existing : Doc) (q : ℚ) (hc : it.item_code ≠ "")
    (hf : findOne db it.item_code = some existing)
    (hq : toNum (ErpSync.oldQty existing) = some q)
    (hgt : pyAbs (it.stock_qty - q) > eps) :
    ErpSync.processItem it db now
      = ((updateOne db it.item_code (ErpSync.updateFields it.stock_qty now)).1,
         { checked := 1,
           updated := if (updateOne db it.item_code
             (ErpSync.updateFields it.stock_qty now)).2 > 0 then 1 else 0 },
         none) := by
  simp [ErpSync.processItem, hc, hf, ErpSync.updateExistingItem, hq, hgt]

theorem erp_processItem_create (it : SqlItem) (db : Collection) (now : Nat)
    (hc : it.item_code ≠ "") (hf : findOne db it.item_code = none) :
    ErpSync.processItem it db now
      = (insertOne db (ErpSync.newItemDoc it it.stock_qty now),
         { checked := 1, created := 1 }, none) := by
  simp [ErpSync.processItem, hc, hf, ErpSync.createNewItem]

theorem erp_updateFields_keys (q : ℚ) (now : Nat) :
    (ErpSync.updateFields q now).map Prod.fst
      = ["sql_server_qty", "stock_qty", "last_synced", "qty_changed",
         "qty_change_detected_at"] := rfl

theorem erp_newItemDoc_code (it : SqlItem) (q : ℚ) (now : Nat) :
    getField (ErpSync.newItemDoc it q now) "item_code"
      = some (.str it.item_code) := by
  simp [ErpSync.newItemDoc, getField_cons]

theorem pyAbs_sub_self_le_eps (x : ℚ) : pyAbs (x - x) ≤ eps := by
  rw [sub_self]
  rw [show pyAbs 0 = 0 from by decide]
  decide

theorem erp_applyUpdate_sqlqty (d : Doc) (q : ℚ) (now : Nat) :
    getField (applySet d (ErpSync.updateFields q now)) "sql_server_qty"
      = some (.num q) := by
  rw [getField_applySet]
  simp [ErpSync.updateFields]

theorem erp_oldQty_applyUpdate (d : Doc) (q : ℚ) (now : Nat) :
    ErpSync.oldQty (applySet d (ErpSync.updateFields q now)) = .num q := by
  unfold ErpSync.oldQty
  rw [erp_applyUpdate_sqlqty]

theorem erp_oldQty_newItemDoc (it : SqlItem) (q : ℚ) (now : Nat) :
    ErpSync.oldQty (ErpSync.newItemDoc it q now) = .num q := by
  unfold ErpSync.oldQty
  rw [show getField (ErpSync.newItemDoc it q now) "sql_server_qty"
    = some (.num q) from by simp [ErpSync.newItemDoc, getField_cons]]

theorem erp_findOne_processItem_ne (it : SqlItem) (db : Collection)
    (now : Nat) (c : String) (hc : c ≠ it.item_code) :
    findOne (ErpSync.processItem it db now).1 c = findOne db c := by
  by_cases h0 : it.item_code = ""
  · rw [erp_processItem_empty it db now h0]
  · cases hf : findOne db it.item_code with
    | none =>
      rw [erp_processItem_create it db now h0 hf]
      show findOne (insertOne db (ErpSync.newItemDoc it it.stock_qty now)) c
        = findOne db c
      rw [findOne_insertOne, erp_newItemDoc_code]
      rw [if_neg (by
        simp only [Option.some.injEq, BsonValue.str.injEq]
        exact fun hh => hc hh.symm)]
      exact Option.or_none
    | some existing =>
      cases ht : toNum (ErpSync.oldQty existing) with
      | none => rw [erp_processItem_typeErr it db now existing h0 hf ht]
      | some q =>
        by_cases hcmp : pyAbs (it.stock_qty - q) > eps
        · rw [erp_processItem_update it db now existing q h0 hf ht hcmp]
          exact findOne_updateOne_ne db it.item_code _ c
            (by rw [erp_updateFields_keys]; decide) hc
        · rw [erp_processItem_unchanged it db now existing q h0 hf ht
            (not_lt.mp hcmp)]

theorem erp_processItem_settles (it : SqlItem) (db : Collection) (now : Nat) :
    erpSettled (ErpSync.processItem it db now).1 it := by
  by_cases h0 : it.item_code = ""
  · exact Or.inl h0
  · cases hf : findOne db it.item_code with
    | none =>
      rw [erp_processItem_create it db now h0 hf]
      refine Or.inr ⟨ErpSync.newItemDoc it it.stock_qty now, ?_, ?_⟩
      · show findOne (insertOne db (ErpSync.newItemDoc it it.stock_qty now))
          it.item_code = _
        rw [findOne_insertOne, hf, erp_newItemDoc_code, if_pos rfl]
        rfl
      · exact Or.inr ⟨it.stock_qty,
          by rw [erp_oldQty_newItemDoc]; rfl, pyAbs_sub_self_le_eps _⟩
    | some existing =>
      cases ht : toNum (ErpSync.oldQty existing) with
      | none =>
        rw [erp_processItem_typeErr it db now existing h0 hf ht]
        exact Or.inr ⟨existing, hf, Or.inl ht⟩
      | some q =>
        by_cases hcmp : pyAbs (it.stock_qty - q) > eps
        · rw [erp_processItem_update it db now existing q h0 hf ht hcmp]
          refine Or.inr ⟨applySet existing (ErpSync.updateFields it.stock_qty now),
            ?_, Or.inr ⟨it.stock_qty,
              by rw [erp_oldQty_applyUpdate]; rfl, pyAbs_sub_self_le_eps _⟩⟩
          exact findOne_updateOne_self db it.item_code _ existing
            (by rw [erp_updateFields_keys]; decide) hf
        · rw [erp_processItem_unchanged it db now existing q h0 hf ht
            (not_lt.mp hcmp)]
          exact Or.inr ⟨existing, hf, Or.inr ⟨q, ht, not_lt.mp hcmp⟩⟩

theorem erpSettled_of_findOne_eq (db db' : Collection) (it : SqlItem)
    (h : findOne db' it.item_code = findOne db it.item_code)
    (hs : erpSettled db it) : erpSettled db' it := by
  rcases hs with h0 | ⟨d, hd, hq⟩
  · exact Or.inl h0
  · exact Or.inr ⟨d, by rw [h]; exact hd, hq⟩

theorem erp_findOne_foldl_ne (now : Nat) (l : List SqlItem) (db : Collection)
    (a : ErpDelta) (c : String) (hc : c ∉ l.map SqlItem.item_code) :
    findOne (l.foldl (ErpSync.stepItem now) (db, a)).1 c = findOne db c := by
  induction l generalizing db a with
  | nil => rfl
  | cons x xs ih =>
    simp only [List.foldl_cons]
    have hc1 : c ≠ x.item_code := fun hh => hc (by simp [hh])
    have hc2 : c ∉ xs.map SqlItem.item_code := fun hh => hc (by simp [hh])
    calc findOne (xs.foldl (ErpSync.stepItem now)
            (ErpSync.stepItem now (db, a) x)).1 c
        = findOne (ErpSync.stepItem now (db, a) x).1 c :=
          ih (ErpSync.stepItem now (db, a) x).1
            (ErpSync.stepItem now (db, a) x).2 hc2
      _ = findOne db c := erp_findOne_processItem_ne x db now c hc1

theorem erp_run_settles (now : Nat) (items : List SqlItem) (db : Collection)
    (a : ErpDelta) (hnd : (items.map SqlItem.item_code).Nodup) :
    ∀ it ∈ items,
      erpSettled (items.foldl (ErpSync.stepItem now) (db, a)).1 it := by
  induction items generalizing db a with
  | nil => intro it h; simp at h
  | cons x xs ih =>
    intro it hmem
    simp only [List.map_cons, List.nodup_cons] at hnd
    obtain ⟨hx, hxs⟩ := hnd
    simp only [List.foldl_cons]
    rcases List.mem_cons.mp hmem with hq | hq
    · subst hq
      refine erpSettled_of_findOne_eq (ErpSync.stepItem now (db, a) it).1 _ it
        ?_ ?_
      · exact erp_findOne_foldl_ne now xs (ErpSync.stepItem now (db, a) it).1
          (ErpSync.stepItem now (db, a) it).2 it.item_code (by simpa using hx)
      · exact erp_processItem_settles it db now
    · exact ih (ErpSync.stepItem now (db, a) x).1
        (ErpSync.stepItem now (db, a) x).2 hxs it hq

theorem erp_stepItem_settled (now : Nat) (db : Collection) (a : ErpDelta)
    (it : SqlItem) (hs : erpSettled db it) :
    (ErpSync.stepItem now (db, a) it).1 = db ∧
    (ErpSync.stepItem now (db, a) it).2.updated = a.updated := by
  by_cases h0 : it.item_code = ""
  · constructor <;>
      simp [ErpSync.stepItem, ErpSync.caught, erp_processItem_empty it db now h0,
        ErpDelta.add]
  · rcases hs with h0' | ⟨d, hd, hq⟩
    · exact absurd h0' h0
    · rcases hq with ht | ⟨q, hq, hle⟩
      · constructor <;>
          simp [ErpSync.stepItem, ErpSync.caught,
            erp_processItem_typeErr it db now d h0 hd ht, ErpDelta.add]
      · constructor <;>
          simp [ErpSync.stepItem, ErpSync.caught,
            erp_processItem_unchanged it db now d q h0 hd hq hle, ErpDelta.add]

theorem erp_run_settled_noop (now : Nat) (items : List SqlItem)
    (db : Collection) (a : ErpDelta)
    (hs : ∀ it ∈ items, erpSettled db it) :
    (items.foldl (ErpSync.stepItem now) (db, a)).1 = db ∧
    (items.foldl (ErpSync.stepItem now) (db, a)).2.updated = a.updated := by
  induction items generalizing a with
  | nil => exact ⟨rfl, rfl⟩
  | cons x xs ih =>
    simp only [List.foldl_cons]
    obtain ⟨h1, h2⟩ := erp_stepItem_settled now db a x (hs x (by simp))
    have hP : ErpSync.stepItem now (db, a) x
        = (db, (ErpSync.stepItem now (db, a) x).2) := Prod.ext h1 rfl
    rw [hP]
    have := ih ((ErpSync.stepItem now (db, a) x).2)
      (fun it h => hs it (by simp [h]))
    exact ⟨this.1, this.2.trans h2⟩

theorem erp_processItem_err (it : SqlItem) (db : Collection) (now : Nat)
    (e : PyErr) (h : (ErpSync.processItem it db now).2.2 = some e) :
    ErpSync.processItem it db now = (db, { checked := 1 }, some .typeError) := by
  by_cases h0 : it.item_code = ""
  · rw [erp_processItem_empty it db now h0] at h
    simp at h
  · cases hf : findOne db it.item_code with
    | none =>
      rw [erp_processItem_create it db now h0 hf] at h
      simp at h
    | some d =>
      cases ht : toNum (ErpSync.oldQty d) with
      | none => exact erp_processItem_typeErr it db now d h0 hf ht
      | some q =>
        by_cases hcmp : pyAbs (it.stock_qty - q) > eps
        · rw [erp_processItem_update it db now d q h0 hf ht hcmp] at h
          simp at h
        · rw [erp_processItem_unchanged it db now d q h0 hf ht
            (not_lt.mp hcmp)] at h
          simp at h

theorem erp_foldl_split (now : Nat) (l : List SqlItem)
    (P : Collection × ErpDelta) :
    l.foldl (ErpSync.stepItem now) P
      = ((l.foldl (ErpSync.stepItem now) (P.1, {})).1,
         P.2.add (l.foldl (ErpSync.stepItem now) (P.1, {})).2) :=
  erp_foldl_acc now l P.1 P.2

theorem sql_processItem_create (it : SqlItem) (db : Collection) (now : Nat)
    (hf : findOne db it.item_code = none) :
    SqlSync.processItem it db now
      = (insertOne db (SqlSync.newItemDoc it it.stock_qty now),
         { items_created := 1, items_checked := 1 }, none) := by
  simp [SqlSync.processItem, hf]

theorem sql_processItem_typeErr (it : SqlItem) (db : Collection) (now : Nat)
    (d : Doc) (hf : findOne db it.item_code = some d)
    (ht : toNum (getFieldD d "stock_qty" (.num 0)) = none) :
    SqlSync.processItem it db now = (db, {}, some .typeError) := by
  simp [SqlSync.processItem, hf, ht]

theorem sql_processItem_update (it : SqlItem) (db : Collection) (now : Nat)
    (d : Doc) (mq : ℚ) (hf : findOne db it.item_code = some d)
    (hm : toNum (getFieldD d "stock_qty" (.num 0)) = some mq)
    (hne : it.stock_qty ≠ mq) :
    SqlSync.processItem it db now
      = ((updateOne db it.item_code
            (SqlSync.updateFields it.stock_qty mq now)).1,
         { qty_changes_detected := 1, qty_updated := 1, items_checked := 1 },
         none) := by
  simp [SqlSync.processItem, hf, hm, hne]

theorem sql_processItem_equal (it : SqlItem) (db : Collection) (now : Nat)
    (d : Doc) (hf : findOne db it.item_code = some d)
    (hm : toNum (getFieldD d "stock_qty" (.num 0)) = some it.stock_qty) :
    SqlSync.processItem it db now
      = ((updateOne db it.item_code [("last_synced", .time now)]).1,
         { items_checked := 1 }, none) := by
  simp [SqlSync.processItem, hf, hm]

theorem sql_updateFields_keys (q mq : ℚ) (now : Nat) :
    (SqlSync.updateFields q mq now).map Prod.fst
      = ["stock_qty", "sql_server_qty", "last_synced", "qty_changed_at",
         "qty_change_delta", "updated_at"] := rfl

theorem rt_updateFields_keys (q mq : ℚ) (now : Nat) :
    (SqlSync.rtUpdateFields q mq now).map Prod.fst
      = ["stock_qty", "sql_server_qty", "last_checked", "qty_changed_at",
         "qty_change_delta"] := rfl

theorem sql_newItemDoc_code (it : SqlItem) (q : ℚ) (now : Nat) :
    getField (SqlSync.newItemDoc it q now) "item_code"
      = some (.str it.item_code) := by
  simp [SqlSync.newItemDoc, getField_cons]

theorem rt_realtime_update (getItem : String → Option SqlItem)
    (item_code : String) (db : Collection) (now : Nat) (s : SqlItem) (d : Doc)
    (mq : ℚ) (hgi : getItem item_code = some s)
    (hf : findOne db item_code = some d)
    (hm : toNum (getFieldD d "stock_qty" (.num 0)) = some mq)
    (hne : s.stock_qty ≠ mq) :
    SqlSync.checkItemQtyRealtime true getItem item_code db now
      = ((updateOne db item_code
            (SqlSync.rtUpdateFields s.stock_qty mq now)).1,
         some { item_code := item_code
                sql_qty := some (.num s.stock_qty)
                previous_qty := some mq
                delta := some (s.stock_qty - mq)
                updated := true
                source := "sql_server"
                message := "Quantity updated from SQL Server" },
         none) := by
  simp [SqlSync.checkItemQtyRealtime, hgi, hf, hm, hne]

theorem pyAbs_gt_eps_ne (a b : ℚ) (h : pyAbs (a - b) > eps) : a ≠ b := by
  intro heq
  subst heq
  exact absurd h (not_lt.mpr (pyAbs_sub_self_le_eps a))

theorem sql_newItemDoc_stockqty (it : SqlItem) (q : ℚ) (now : Nat) :
    getField (SqlSync.newItemDoc it q now) "stock_qty" = some (.num q) := by
  simp [SqlSync.newItemDoc, getField_cons]

theorem sql_applyUpdate_stockqty (d : Doc) (q mq : ℚ) (now : Nat) :
    getField (applySet d (SqlSync.updateFields q mq now)) "stock_qty"
      = some (.num q) := by
  rw [getField_applySet]
  simp [SqlSync.updateFields]

theorem sql_ts_keys (now : Nat) :
    ([("last_synced", BsonValue.time now)]).map Prod.fst = ["last_synced"] :=
  rfl

theorem sql_findOne_processItem_ne (it : SqlItem) (db : Collection)
    (now : Nat) (c : String) (hc : c ≠ it.item_code) :
    findOne (SqlSync.processItem it db now).1 c = findOne db c := by
  cases hf : findOne db it.item_code with
  | none =>
    rw [sql_processItem_create it db now hf]
    show findOne (insertOne db (SqlSync.newItemDoc it it.stock_qty now)) c
      = findOne db c
    rw [findOne_insertOne, sql_newItemDoc_code]
    rw [if_neg (by
      simp only [Option.some.injEq, BsonValue.str.injEq]
      exact fun hh => hc hh.symm)]
    exact Option.or_none
  | some d =>
    cases ht : toNum (getFieldD d "stock_qty" (.num 0)) with
    | none => rw [sql_processItem_typeErr it db now d hf ht]
    | some mq =>
      by_cases heq : it.stock_qty = mq
      · subst heq
        rw [sql_processItem_equal it db now d hf ht]
        exact findOne_updateOne_ne db it.item_code _ c
          (by rw [sql_ts_keys]; decide) hc
      · rw [sql_processItem_update it db now d mq hf ht heq]
        exact findOne_updateOne_ne db it.item_code _ c
          (by rw [sql_updateFields_keys]; decide) hc

theorem sql_processItem_settles (it : SqlItem) (db : Collection) (now : Nat) :
    sqlSettled (SqlSync.processItem it db now).1 it := by
  cases hf : findOne db it.item_code with
  | none =>
    rw [sql_processItem_create it db now hf]
    refine ⟨SqlSync.newItemDoc it it.stock_qty now, ?_, Or.inr ?_⟩
    · show findOne (insertOne db (SqlSync.newItemDoc it it.stock_qty now))
        it.item_code = _
      rw [findOne_insertOne, hf, sql_newItemDoc_code, if_pos rfl]
      rfl
    · show toNum ((getField (SqlSync.newItemDoc it it.stock_qty now)
        "stock_qty").getD (.num 0)) = some it.stock_qty
      rw [sql_newItemDoc_stockqty]
      rfl
  | some d =>
    cases ht : toNum (getFieldD d "stock_qty" (.num 0)) with
    | none =>
      rw [sql_processItem_typeErr it db now d hf ht]
      exact ⟨d, hf, Or.inl ht⟩
    | some mq =>
      by_cases heq : it.stock_qty = mq
      · subst heq
        rw [sql_processItem_equal it db now d hf ht]
        refine ⟨applySet d [("last_synced", .time now)], ?_, Or.inr ?_⟩
        · show findOne (updateOne db it.item_code
            [("last_synced", .time now)]).1 it.item_code = _
          exact findOne_updateOne_self db it.item_code _ d
            (by rw [sql_ts_keys]; decide) hf
        · show toNum ((getField (applySet d [("last_synced", .time now)])
            "stock_qty").getD (.num 0)) = some it.stock_qty
          rw [getField_applySet_not_mem d _ _ (by rw [sql_ts_keys]; decide)]
          exact ht
      · rw [sql_processItem_update it db now d mq hf ht heq]
        refine ⟨applySet d (SqlSync.updateFields it.stock_qty mq now), ?_,
          Or.inr ?_⟩
        · show findOne (updateOne db it.item_code
            (SqlSync.updateFields it.stock_qty mq now)).1 it.item_code = _
          exact findOne_updateOne_self db it.item_code _ d
            (by rw [sql_updateFields_keys]; decide) hf
        · show toNum ((getField (applySet d
            (SqlSync.updateFields it.stock_qty mq now)) "stock_qty").getD
            (.num 0)) = some it.stock_qty
          rw [sql_applyUpdate_stockqty]
          rfl

theorem sqlSettled_of_findOne_eq (db db' : Collection) (it : SqlItem)
    (h : findOne db' it.item_code = findOne db it.item_code)
    (hs : sqlSettled db it) : sqlSettled db' it := by
  obtain ⟨d, hd, hq⟩ := hs
  exact ⟨d, by rw [h]; exact hd, hq⟩

theorem sql_findOne_foldl_ne (now : Nat) (l : List SqlItem) (db : Collection)
    (a : SqlDelta) (c : String) (hc : c ∉ l.map SqlItem.item_code) :
    findOne (l.foldl (SqlSync.stepItem now) (db, a)).1 c = findOne db c := by
  induction l generalizing db a with
  | nil => rfl
  | cons x xs ih =>
    simp only [List.foldl_cons]
    have hc1 : c ≠ x.item_code := fun hh => hc (by simp [hh])
    have hc2 : c ∉ xs.map SqlItem.item_code := fun hh => hc (by simp [hh])
    calc findOne (xs.foldl (SqlSync.stepItem now)
            (SqlSync.stepItem now (db, a) x)).1 c
        = findOne (SqlSync.stepItem now (db, a) x).1 c :=
          ih (SqlSync.stepItem now (db, a) x).1
            (SqlSync.stepItem now (db, a) x).2 hc2
      _ = findOne db c := sql_findOne_processItem_ne x db now c hc1

theorem sql_run_settles (now : Nat) (items : List SqlItem) (db : Collection)
    (a : SqlDelta) (hnd : (items.map SqlItem.item_code).Nodup) :
    ∀ it ∈ items,
      sqlSettled (items.foldl (SqlSync.stepItem now) (db, a)).1 it := by
  induction items generalizing db a with
  | nil => intro it h; simp at h
  | cons x xs ih =>
    intro it hmem
    simp only [List.map_cons, List.nodup_cons] at hnd
    obtain ⟨hx, hxs⟩ := hnd
    simp only [List.foldl_cons]
    rcases List.mem_cons.mp hmem with hq | hq
    · subst hq
      refine sqlSettled_of_findOne_eq (SqlSync.stepItem now (db, a) it).1 _ it
        ?_ ?_
      · exact sql_findOne_foldl_ne now xs (SqlSync.stepItem now (db, a) it).1
          (SqlSync.stepItem now (db, a) it).2 it.item_code (by simpa using hx)
      · exact sql_processItem_settles it db now
    · exact ih (SqlSync.stepItem now (db, a) x).1
        (SqlSync.stepItem now (db, a) x).2 hxs it hq

theorem sql_run_settled_noupdates (now : Nat) (items : List SqlItem)
    (db : Collection) (a : SqlDelta)
    (hnd : (items.map SqlItem.item_code).Nodup)
    (hs : ∀ it ∈ items, sqlSettled db it) :
    (items.foldl (SqlSync.stepItem now) (db, a)).2.qty_updated
      = a.qty_updated := by
  induction items generalizing db a with
  | nil => rfl
  | cons x xs ih =>
    simp only [List.map_cons, List.nodup_cons] at hnd
    obtain ⟨hx, hxs⟩ := hnd
    simp only [List.foldl_cons]
    obtain ⟨d, hf, hcase⟩ := hs x (by simp)
    have hstep : ∃ δ : SqlDelta, SqlSync.stepItem now (db, a) x
        = ((SqlSync.processItem x db now).1, a.add δ) ∧ δ.qty_updated = 0 := by
      rcases hcase with ht | ht
      · refine ⟨{ errors := 1 }, ?_, rfl⟩
        simp [SqlSync.stepItem, SqlSync.caught,
          sql_processItem_typeErr x db now d hf ht]
      · refine ⟨{ items_checked := 1 }, ?_, rfl⟩
        simp [SqlSync.stepItem, SqlSync.caught,
          sql_processItem_equal x db now d hf ht]
    obtain ⟨δ, hstepEq, hδ⟩ := hstep
    have hrest : ∀ it ∈ xs, sqlSettled (SqlSync.processItem x db now).1 it := by
      intro it hit
      refine sqlSettled_of_findOne_eq db _ it ?_ (hs it (by simp [hit]))
      exact sql_findOne_processItem_ne x db now it.item_code
        (fun hh => hx (hh ▸ List.mem_map.mpr ⟨it, hit, rfl⟩))
    rw [hstepEq, ih ((SqlSync.processItem x db now).1) (a.add δ) hxs hrest]
    simp [SqlDelta.add, hδ]

theorem erp_applyUpdate_stockqty (d : Doc) (q : ℚ) (now : Nat) :
    getField (applySet d (ErpSync.updateFields q now)) "stock_qty"
      = some (.num q) := by
  rw [getField_applySet]
  simp [ErpSync.updateFields]

theorem sql_applyUpdate_delta (d : Doc) (q mq : ℚ) (now : Nat) :
    getField (applySet d (SqlSync.updateFields q mq now)) "qty_change_delta"
      = some (.num (q - mq)) := by
  rw [getField_applySet]
  simp [SqlSync.updateFields]

theorem sql_applyUpdate_changedAt (d : Doc) (q mq : ℚ) (now : Nat) :
    getField (applySet d (SqlSync.updateFields q mq now)) "qty_changed_at"
      = some (.time now) := by
  rw [getField_applySet]
  simp [SqlSync.updateFields]

theorem erp_update_modified (d : Doc) (q sql : ℚ) (now : Nat)
    (hq : toNum (ErpSync.oldQty d) = some q)
    (hgt : pyAbs (sql - q) > eps) :
    applySet d (ErpSync.updateFields sql now) ≠ d := by
  intro heq
  have h1 := erp_applyUpdate_sqlqty d sql now
  rw [heq] at h1
  have h2 : ErpSync.oldQty d = .num sql := by
    unfold ErpSync.oldQty
    rw [h1]
  rw [h2] at hq
  simp only [toNum, Option.some.injEq] at hq
  subst hq
  exact absurd hgt (not_lt.mpr (pyAbs_sub_self_le_eps sql))

/-- C1 (confirmed): each sync write of the per-item reconciliation (the
erp full-sync update, the sql full-sync update and the single-item realtime
update) has a field set that contains no enrichment field and only
authoritative fields; consequently, for any pre-existing document whose
stored authoritative quantity differs from the source quantity by more than
epsilon, every enrichment field of the post-sync document equals its
pre-sync value. -/
theorem c1_field_isolation :
    (∀ (q : ℚ) (now : Nat), ∀ k ∈ enrichmentFields,
       k ∉ (ErpSync.updateFields q now).map Prod.fst) ∧
    (∀ (q mq : ℚ) (now : Nat), ∀ k ∈ enrichmentFields,
       k ∉ (SqlSync.updateFields q mq now).map Prod.fst) ∧
    (∀ (q mq : ℚ) (now : Nat), ∀ k ∈ enrichmentFields,
       k ∉ (SqlSync.rtUpdateFields q mq now).map Prod.fst) ∧
    (∀ (q : ℚ) (now : Nat),
       ∀ k ∈ (ErpSync.updateFields q now).map Prod.fst,
       k ∈ authoritativeFields) ∧
    (∀ (q mq : ℚ) (now : Nat),
       ∀ k ∈ (SqlSync.updateFields q mq now).map Prod.fst,
       k ∈ authoritativeFields) ∧
    (∀ (q mq : ℚ) (now : Nat),
       ∀ k ∈ (SqlSync.rtUpdateFields q mq now).map Prod.fst,
       k ∈ authoritativeFields) ∧
    (∀ (it : SqlItem) (db : Collection) (now : Nat) (d : Doc) (q : ℚ),
       findOne db it.item_code = some d →
       toNum (ErpSync.oldQty d) = some q →
       pyAbs (it.stock_qty - q) > eps →
       ∀ k ∈ enrichmentFields,
         (findOne (ErpSync.processItem it db now).1 it.item_code).map
           (fun d' => getField d' k) = some (getField d k)) ∧
    (∀ (it : SqlItem) (db : Collection) (now : Nat) (d : Doc) (mq : ℚ),
       findOne db it.item_code = some d →
       toNum (getFieldD d "stock_qty" (.num 0)) = some mq →
       pyAbs (it.stock_qty - mq) > eps →
       ∀ k ∈ enrichmentFields,
         (findOne (SqlSync.processItem it db now).1 it.item_code).map
           (fun d' => getField d' k) = some (getField d k)) ∧
    (∀ (getItem : String → Option SqlItem) (item_code : String)
       (db : Collection) (now : Nat) (s : SqlItem) (d : Doc) (mq : ℚ),
       getItem item_code = some s →
       findOne db item_code = some d →
       toNum (getFieldD d "stock_qty" (.num 0)) = some mq →
       pyAbs (s.stock_qty - mq) > eps →
       ∀ k ∈ enrichmentFields,
         (findOne
           (SqlSync.checkItemQtyRealtime true getItem item_code db now).1
           item_code).map (fun d' => getField d' k)
           = some (getField d k)) := by
  have herpKeys : ∀ k' ∈ enrichmentFields,
      k' ∉ (["sql_server_qty", "stock_qty", "last_synced", "qty_changed",
             "qty_change_detected_at"] : List String) := by decide
  have hsqlKeys : ∀ k' ∈ enrichmentFields,
      k' ∉ (["stock_qty", "sql_server_qty", "last_synced", "qty_changed_at",
             "qty_change_delta", "updated_at"] : List String) := by decide
  have hrtKeys : ∀ k' ∈ enrichmentFields,
      k' ∉ (["stock_qty", "sql_server_qty", "last_checked", "qty_changed_at",
             "qty_change_delta"] : List String) := by decide
  refine ⟨?_, ?_, ?_, ?_, ?_, ?_, ?_, ?_, ?_⟩
  · intro q now
    rw [erp_updateFields_keys]
    exact herpKeys
  · intro q mq now
    rw [sql_updateFields_keys]
    exact hsqlKeys
  · intro q mq now
    rw [rt_updateFields_keys]
    exact hrtKeys
  · intro q now
    rw [erp_updateFields_keys]
    decide
  · intro q mq now
    rw [sql_updateFields_keys]
    decide
  · intro q mq now
    rw [rt_updateFields_keys]
    decide
  · intro it db now d q hf hq hgt k hk
    by_cases h0 : it.item_code = ""
    · rw [erp_processItem_empty it db now h0]
      show (findOne db it.item_code).map (fun d' => getField d' k)
        = some (getField d k)
      rw [hf]
      rfl
    · rw [erp_processItem_update it db now d q h0 hf hq hgt]
      show (findOne (updateOne db it.item_code
          (ErpSync.updateFields it.stock_qty now)).1 it.item_code).map
          (fun d' => getField d' k) = some (getField d k)
      rw [findOne_updateOne_self db it.item_code _ d
        (by rw [erp_updateFields_keys]; decide) hf]
      rw [show ∀ a : Doc, (some a).map (fun d' => getField d' k)
        = some (getField a k) from fun a => rfl]
      rw [getField_applySet_not_mem d _ k
        (by rw [erp_updateFields_keys]; exact herpKeys k hk)]
  · intro it db now d mq hf hm hgt k hk
    have hne := pyAbs_gt_eps_ne it.stock_qty mq hgt
    rw [sql_processItem_update it db now d mq hf hm hne]
    show (findOne (updateOne db it.item_code
        (SqlSync.updateFields it.stock_qty mq now)).1 it.item_code).map
        (fun d' => getField d' k) = some (getField d k)
    rw [findOne_updateOne_self db it.item_code _ d
      (by rw [sql_updateFields_keys]; decide) hf]
    rw [show ∀ a : Doc, (some a).map (fun d' => getField d' k)
      = some (getField a k) from fun a => rfl]
    rw [getField_applySet_not_mem d _ k
      (by rw [sql_updateFields_keys]; exact hsqlKeys k hk)]
  · intro getItem item_code db now s d mq hgi hf hm hgt k hk
    have hne := pyAbs_gt_eps_ne s.stock_qty mq hgt
    rw [rt_realtime_update getItem item_code db now s d mq hgi hf hm hne]
    show (findOne (updateOne db item_code
        (SqlSync.rtUpdateFields s.stock_qty mq now)).1 item_code).map
        (fun d' => getField d' k) = some (getField d k)
    rw [findOne_updateOne_self db item_code _ d
      (by rw [rt_updateFields_keys]; decide) hf]
    rw [show ∀ a : Doc, (some a).map (fun d' => getField d' k)
      = some (getField a k) from fun a => rfl]
    rw [getField_applySet_not_mem d _ k
      (by rw [rt_updateFields_keys]; exact hrtKeys k hk)]

/-- Witness for C1: spec Scenario B on the erp path — source quantity 10
against stored quantity 8 with `mrp = 100` — leaves `mrp` exactly as it was
after the sync write. -/
theorem c1_field_isolation_witness :
    findOne [scenBDoc] "X1" = some scenBDoc ∧
    toNum (ErpSync.oldQty scenBDoc) = some 8 ∧
    pyAbs ((10 : ℚ) - 8) > eps ∧
    (findOne (ErpSync.processItem scenBItem [scenBDoc] 4).1 "X1").map
      (fun d' => getField d' "mrp") = some (getField scenBDoc "mrp") :=
  ⟨by decide, by decide, by decide,
   (c1_field_isolation.2.2.2.2.2.2.1 scenBItem [scenBDoc] 4 scenBDoc 8
     (by decide) (by decide) (by decide)) "mrp" (by decide)⟩

/-- Counterexample for C3 as stated: an erp-path item within tolerance
(stored quantity 5, source quantity 5, tick 7) is counted as unchanged but
the reconciliation writes nothing at all: the collection is returned
unchanged and the sync timestamp keeps its stale value 0 instead of being
set to 7. -/
theorem c3_counterexample :
    ErpSync.processItem { item_code := "A", stock_qty := 5 } [tsDoc] 7
      = ([tsDoc], { checked := 1, unchanged := 1 }, none) ∧
    getField tsDoc "last_synced" = some (.time 0) ∧
    some (BsonValue.time 0) ≠ some (.time 7) := by
  decide

/-- C3 (corrected): in the erp full-sync variant a within-epsilon item is
counted as unchanged and no field at all is written (not even the sync
timestamp); in the sql full-sync variant the comparison is exact, not
epsilon-tolerant: on exact equality exactly one field — the sync timestamp —
is written and the item is counted only in `items_checked` (no unchanged
counter exists), while a nonzero difference within epsilon takes the updated
branch. -/
theorem c3_tolerance_branch :
    (∀ (it : SqlItem) (db : Collection) (now : Nat) (d : Doc) (q : ℚ),
       it.item_code ≠ "" →
       findOne db it.item_code = some d →
       toNum (ErpSync.oldQty d) = some q →
       pyAbs (it.stock_qty - q) ≤ eps →
       ErpSync.processItem it db now
         = (db, { checked := 1, unchanged := 1 }, none)) ∧
    (∀ (it : SqlItem) (db : Collection) (now : Nat) (d : Doc),
       findOne db it.item_code = some d →
       toNum (getFieldD d "stock_qty" (.num 0)) = some it.stock_qty →
       SqlSync.processItem it db now
         = ((updateOne db it.item_code [("last_synced", .time now)]).1,
            { items_checked := 1 }, none)) ∧
    (∀ (it : SqlItem) (db : Collection) (now : Nat) (d : Doc) (mq : ℚ),
       findOne db it.item_code = some d →
       toNum (getFieldD d "stock_qty" (.num 0)) = some mq →
       it.stock_qty ≠ mq →
       pyAbs (it.stock_qty - mq) ≤ eps →
       (SqlSync.processItem it db now).2.1.qty_updated = 1) := by
  refine ⟨?_, ?_, ?_⟩
  · intro it db now d q h0 hf hq hle
    exact erp_processItem_unchanged it db now d q h0 hf hq hle
  · intro it db now d hf hm
    exact sql_processItem_equal it db now d hf hm
  · intro it db now d mq hf hm hne _
    rw [sql_processItem_update it db now d mq hf hm hne]

/-- Witness for C3: concrete instances of all three branches — the erp
no-write unchanged branch, the sql timestamp-only branch, and the sql
within-epsilon difference taking the updated branch. -/
theorem c3_tolerance_branch_witness :
    ErpSync.processItem { item_code := "A", stock_qty := 5 } [tsDoc] 9
      = ([tsDoc], { checked := 1, unchanged := 1 }, none) ∧
    SqlSync.processItem { item_code := "A", stock_qty := 5 } [tsDoc] 9
      = ((updateOne [tsDoc] "A" [("last_synced", .time 9)]).1,
         { items_checked := 1 }, none) ∧
    (SqlSync.processItem
      { item_code := "A", stock_qty := 5 + mkRat 1 2000 } [tsDoc] 9).2.1.qty_updated
      = 1 :=
  ⟨c3_tolerance_branch.1 { item_code := "A", stock_qty := 5 } [tsDoc] 9 tsDoc 5
     (by decide) (by decide) (by decide) (by decide),
   c3_tolerance_branch.2.1 { item_code := "A", stock_qty := 5 } [tsDoc] 9 tsDoc
     (by decide) (by decide),
   c3_tolerance_branch.2.2 { item_code := "A", stock_qty := 5 + mkRat 1 2000 }
     [tsDoc] 9 tsDoc 5 (by decide) (by decide) (by decide) (by decide)⟩

/-- Counterexample for C4 as stated: spec Scenario B on the erp full-sync
path (stored 8, source 10) performs the update write, but the post-sync
document carries no delta field at all (`qty_change_delta` is absent), and
the write's field set contains no delta field. -/
theorem c4_counterexample :
    (findOne (ErpSync.processItem scenBItem [scenBDoc] 3).1 "X1").map
      (fun d => getField d "qty_change_delta") = some none ∧
    (ErpSync.updateFields (10 : ℚ) 3).map Prod.fst
      = ["sql_server_qty", "stock_qty", "last_synced", "qty_changed",
         "qty_change_detected_at"] ∧
    (findOne (ErpSync.processItem scenBItem [scenBDoc] 3).1 "X1").map
      (fun d => getField d "stock_qty") = some (some (.num 10)) := by
  decide

/-- C4 (corrected): only the sql_sync_service variant stores the delta.  Its
update write sets the new quantity, the change-detected timestamp and
`qty_change_delta = sourceQty - storedQty`, counting the item as updated.
The erp_sync_service variant's update write sets the quantity fields, the
sync timestamp, the `qty_changed` flag and the change-detected timestamp,
counts the item as updated, but writes no delta field (a pre-existing
`qty_change_delta` value is left untouched). -/
theorem c4_delta_field :
    (∀ (it : SqlItem) (db : Collection) (now : Nat) (d : Doc) (mq : ℚ),
       findOne db it.item_code = some d →
       toNum (getFieldD d "stock_qty" (.num 0)) = some mq →
       it.stock_qty ≠ mq →
       SqlSync.processItem it db now
         = ((updateOne db it.item_code
              (SqlSync.updateFields it.stock_qty mq now)).1,
            { qty_changes_detected := 1, qty_updated := 1, items_checked := 1 },
            none) ∧
       (findOne (SqlSync.processItem it db now).1 it.item_code).map
         (fun d' => getField d' "qty_change_delta")
         = some (some (.num (it.stock_qty - mq))) ∧
       (findOne (SqlSync.processItem it db now).1 it.item_code).map
         (fun d' => getField d' "stock_qty")
         = some (some (.num it.stock_qty)) ∧
       (findOne (SqlSync.processItem it db now).1 it.item_code).map
         (fun d' => getField d' "qty_changed_at")
         = some (some (.time now))) ∧
    (∀ (it : SqlItem) (db : Collection) (now : Nat) (d : Doc) (q : ℚ),
       it.item_code ≠ "" →
       findOne db it.item_code = some d →
       toNum (ErpSync.oldQty d) = some q →
       pyAbs (it.stock_qty - q) > eps →
       ErpSync.processItem it db now
         = ((updateOne db it.item_code
              (ErpSync.updateFields it.stock_qty now)).1,
            { checked := 1, updated := 1 }, none) ∧
       (findOne (ErpSync.processItem it db now).1 it.item_code).map
         (fun d' => getField d' "qty_change_delta")
         = some (getField d "qty_change_delta") ∧
       (findOne (ErpSync.processItem it db now).1 it.item_code).map
         (fun d' => getField d' "stock_qty")
         = some (some (.num it.stock_qty))) := by
  constructor
  · intro it db now d mq hf hm hne
    have hproc := sql_processItem_update it db now d mq hf hm hne
    have hfind : findOne (SqlSync.processItem it db now).1 it.item_code
        = some (applySet d (SqlSync.updateFields it.stock_qty mq now)) := by
      rw [hproc]
      exact findOne_updateOne_self db it.item_code _ d
        (by rw [sql_updateFields_keys]; decide) hf
    refine ⟨hproc, ?_, ?_, ?_⟩
    · rw [hfind]
      rw [show ∀ a : Doc, (some a).map (fun d' => getField d' "qty_change_delta")
        = some (getField a "qty_change_delta") from fun a => rfl]
      rw [sql_applyUpdate_delta]
    · rw [hfind]
      rw [show ∀ a : Doc, (some a).map (fun d' => getField d' "stock_qty")
        = some (getField a "stock_qty") from fun a => rfl]
      rw [sql_applyUpdate_stockqty]
    · rw [hfind]
      rw [show ∀ a : Doc, (some a).map (fun d' => getField d' "qty_changed_at")
        = some (getField a "qty_changed_at") from fun a => rfl]
      rw [sql_applyUpdate_changedAt]
  · intro it db now d q h0 hf hq hgt
    have hmod : (updateOne db it.item_code
        (ErpSync.updateFields it.stock_qty now)).2 = 1 := by
      rw [updateOne_modified db it.item_code _ d hf,
        if_neg (erp_update_modified d q it.stock_qty now hq hgt)]
    have hproc : ErpSync.processItem it db now
        = ((updateOne db it.item_code
            (ErpSync.updateFields it.stock_qty now)).1,
           { checked := 1, updated := 1 }, none) := by
      rw [erp_processItem_update it db now d q h0 hf hq hgt, hmod]
      simp
    have hfind : findOne (ErpSync.processItem it db now).1 it.item_code
        = some (applySet d (ErpSync.updateFields it.stock_qty now)) := by
      rw [hproc]
      exact findOne_updateOne_self db it.item_code _ d
        (by rw [erp_updateFields_keys]; decide) hf
    refine ⟨hproc, ?_, ?_⟩
    · rw [hfind]
      rw [show ∀ a : Doc, (some a).map (fun d' => getField d' "qty_change_delta")
        = some (getField a "qty_change_delta") from fun a => rfl]
      rw [getField_applySet_not_mem d _ _ (by rw [erp_updateFields_keys]; decide)]
    · rw [hfind]
      rw [show ∀ a : Doc, (some a).map (fun d' => getField d' "stock_qty")
        = some (getField a "stock_qty") from fun a => rfl]
      rw [erp_applyUpdate_stockqty]

/-- Witness for C4: spec Scenario B run through the sql path (which stores
delta 2) and through the erp path (counted updated, quantity 10). -/
theorem c4_delta_field_witness :
    (findOne (SqlSync.processItem scenBItem [scenBDoc] 3).1 "X1").map
      (fun d' => getField d' "qty_change_delta")
      = some (some (.num 2)) ∧
    ErpSync.processItem scenBItem [scenBDoc] 3
      = ((updateOne [scenBDoc] "X1" (ErpSync.updateFields 10 3)).1,
         { checked := 1, updated := 1 }, none) := by
  constructor
  · have h := (c4_delta_field.1 scenBItem [scenBDoc] 3 scenBDoc 8
      (by decide) (by decide) (by decide)).2.1
    exact h.trans (by decide)
  · exact (c4_delta_field.2 scenBItem [scenBDoc] 3 scenBDoc 8
      (by decide) (by decide) (by decide) (by decide)).1

/-- C2 (corrected: restricted to snapshots with pairwise-distinct item keys,
and after the first run the stored quantity is within epsilon of — not
necessarily equal to — the source quantity): running the full sync twice
consecutively with the source unchanged yields zero updated items on the
second run, in both sync-service variants; the erp variant's second run
performs no write at all, the sql variant's second run touches at most
timestamps. -/
theorem c2_second_run_no_updates (items : List SqlItem) (db : Collection)
    (now1 now2 : Nat) (hnd : (items.map SqlItem.item_code).Nodup) :
    (ErpSync.syncItems items (ErpSync.syncItems items db now1).1 now2).2.updated
        = 0 ∧
    (ErpSync.syncItems items (ErpSync.syncItems items db now1).1 now2).1
        = (ErpSync.syncItems items db now1).1 ∧
    (SqlSync.syncQuantitiesOnly items
      (SqlSync.syncQuantitiesOnly items db now1).1 now2).2.qty_updated = 0 := by
  refine ⟨?_, ?_, ?_⟩
  · simp only [syncItems_eq_foldl]
    exact (erp_run_settled_noop now2 items
      (items.foldl (ErpSync.stepItem now1) (db, {})).1 {}
      (erp_run_settles now1 items db {} hnd)).2
  · simp only [syncItems_eq_foldl]
    exact (erp_run_settled_noop now2 items
      (items.foldl (ErpSync.stepItem now1) (db, {})).1 {}
      (erp_run_settles now1 items db {} hnd)).1
  · exact sql_run_settled_noupdates now2 items
      (SqlSync.syncQuantitiesOnly items db now1).1 {} hnd
      (sql_run_settles now1 items db {} hnd)

/-- Witness for C2: a concrete one-item snapshot with distinct keys satisfies
the hypothesis, and the second run reports zero updated items. -/
theorem c2_second_run_no_updates_witness :
    ([goodItem].map SqlItem.item_code).Nodup ∧
    (ErpSync.syncItems [goodItem]
      (ErpSync.syncItems [goodItem] [] 0).1 1).2.updated = 0 :=
  ⟨by decide, (c2_second_run_no_updates [goodItem] [] 0 1 (by decide)).1⟩

/-- Counterexample for C2 as stated: for the source snapshot `dupItems`
(the same key "A" with quantities 5 and 7), the second consecutive full sync
against the unchanged source reports `items_updated = 2`, not 0. -/
theorem c2_counterexample :
    (ErpSync.syncItems dupItems
      (ErpSync.syncItems dupItems [] 0).1 1).2.updated = 2 ∧
    ¬ (ErpSync.syncItems dupItems
      (ErpSync.syncItems dupItems [] 0).1 1).2.updated = 0 := by
  simp only [syncItems_eq_foldl]
  decide

theorem sql_stepItem_acc (now : Nat) (x : SqlItem) (db : Collection)
    (b : SqlDelta) :
    SqlSync.stepItem now (db, b) x
      = ((SqlSync.stepItem now (db, {}) x).1,
         b.add (SqlSync.stepItem now (db, {}) x).2) := by
  simp [SqlSync.stepItem, sqlDelta_empty_add]

theorem sql_foldl_acc (now : Nat) (l : List SqlItem) (db : Collection)
    (a : SqlDelta) :
    l.foldl (SqlSync.stepItem now) (db, a)
      = ((l.foldl (SqlSync.stepItem now) (db, {})).1,
         a.add (l.foldl (SqlSync.stepItem now) (db, {})).2) := by
  induction l generalizing db a with
  | nil => simp [sqlDelta_add_empty]
  | cons x xs ih =>
    simp only [List.foldl_cons]
    rw [sql_stepItem_acc now x db a, sql_stepItem_acc now x db {}]
    rw [sqlDelta_empty_add]
    rw [ih (SqlSync.stepItem now (db, {}) x).1
      ((SqlSync.stepItem now (db, {}) x).2)]
    rw [ih (SqlSync.stepItem now (db, {}) x).1
      (SqlDelta.add a (SqlSync.stepItem now (db, {}) x).2)]
    rw [sqlDelta_add_assoc]

theorem sql_foldl_split (now : Nat) (l : List SqlItem)
    (P : Collection × SqlDelta) :
    l.foldl (SqlSync.stepItem now) P
      = ((l.foldl (SqlSync.stepItem now) (P.1, {})).1,
         P.2.add (l.foldl (SqlSync.stepItem now) (P.1, {})).2) :=
  sql_foldl_acc now l P.1 P.2

theorem sql_processItem_err (it : SqlItem) (db : Collection) (now : Nat)
    (e : PyErr) (h : (SqlSync.processItem it db now).2.2 = some e) :
    SqlSync.processItem it db now = (db, {}, some .typeError) := by
  cases hf : findOne db it.item_code with
  | none =>
    rw [sql_processItem_create it db now hf] at h
    simp at h
  | some d =>
    cases ht : toNum (getFieldD d "stock_qty" (.num 0)) with
    | none => exact sql_processItem_typeErr it db now d hf ht
    | some mq =>
      by_cases heq : it.stock_qty = mq
      · subst heq
        rw [sql_processItem_equal it db now d hf ht] at h
        simp at h
      · rw [sql_processItem_update it db now d mq hf ht heq] at h
        simp at h

/-- C7 (confirmed): in both full-sync implementations, an item whose
per-item processing raises contributes exactly one error increment and
nothing else beyond its own pre-raise mutation: the run's final collection
and every counter contributed by the other items, in its own batch and in
all other batches, are exactly those of the run without the raising item.
In the erp variant the raising item's own checked increment was already
made before the raise; in the sql variant `items_checked` is incremented
after the branch, so the raising item contributes only the error.  The
exception never escapes either run (the result types carry no
exception). -/
theorem c7_fault_isolation :
    (∀ (pre post : List SqlItem) (j : SqlItem) (db : Collection) (now : Nat)
       (e : PyErr),
       (ErpSync.processItem j (ErpSync.syncItems pre db now).1 now).2.2
         = some e →
       ErpSync.syncItems (pre ++ j :: post) db now
         = ((ErpSync.syncItems (pre ++ post) db now).1,
            (ErpSync.syncItems (pre ++ post) db now).2.add
              { checked := 1, errors := 1 })) ∧
    (∀ (pre post : List SqlItem) (j : SqlItem) (db : Collection) (now : Nat)
       (e : PyErr),
       (SqlSync.processItem j
         (SqlSync.syncQuantitiesOnly pre db now).1 now).2.2 = some e →
       SqlSync.syncQuantitiesOnly (pre ++ j :: post) db now
         = ((SqlSync.syncQuantitiesOnly (pre ++ post) db now).1,
            (SqlSync.syncQuantitiesOnly (pre ++ post) db now).2.add
              { errors := 1 })) := by
  constructor
  · intro pre post j db now e h
    simp only [syncItems_eq_foldl] at h ⊢
    rw [List.foldl_append, List.foldl_append, List.foldl_cons]
    generalize hP : pre.foldl (ErpSync.stepItem now) (db, ({} : ErpDelta)) = P
      at h ⊢
    have herr := erp_processItem_err j P.1 now e h
    have hstep : ErpSync.stepItem now P j
        = (P.1, P.2.add { checked := 1, errors := 1 }) := by
      simp only [ErpSync.stepItem, herr, ErpSync.caught]
      rfl
    rw [hstep]
    rw [erp_foldl_split now post (P.1, P.2.add { checked := 1, errors := 1 }),
      erp_foldl_split now post P]
    refine Prod.ext rfl ?_
    show (P.2.add { checked := 1, errors := 1 }).add
        (post.foldl (ErpSync.stepItem now) (P.1, {})).2
      = (P.2.add (post.foldl (ErpSync.stepItem now) (P.1, {})).2).add
        { checked := 1, errors := 1 }
    rw [erpDelta_add_assoc, erpDelta_add_assoc,
      erpDelta_add_comm { checked := 1, errors := 1 }
        ((post.foldl (ErpSync.stepItem now) (P.1, {})).2)]
  · intro pre post j db now e h
    unfold SqlSync.syncQuantitiesOnly at h ⊢
    rw [List.foldl_append, List.foldl_append, List.foldl_cons]
    generalize hP : pre.foldl (SqlSync.stepItem now) (db, ({} : SqlDelta)) = P
      at h ⊢
    have herr := sql_processItem_err j P.1 now e h
    have hstep : SqlSync.stepItem now P j
        = (P.1, P.2.add { errors := 1 }) := by
      simp only [SqlSync.stepItem, herr, SqlSync.caught]
      rfl
    rw [hstep]
    rw [sql_foldl_split now post (P.1, P.2.add { errors := 1 }),
      sql_foldl_split now post P]
    refine Prod.ext rfl ?_
    show (P.2.add { errors := 1 }).add
        (post.foldl (SqlSync.stepItem now) (P.1, {})).2
      = (P.2.add (post.foldl (SqlSync.stepItem now) (P.1, {})).2).add
        { errors := 1 }
    rw [sqlDelta_add_assoc, sqlDelta_add_assoc,
      sqlDelta_add_comm { errors := 1 }
        ((post.foldl (SqlSync.stepItem now) (P.1, {})).2)]

/-- Witness for C7: with one healthy item after an item whose stored
document holds a non-numeric quantity (so its processing raises
`TypeError`), the erp run equals the run without the raising item plus one
checked and one error count, and the sql run equals the run without it
plus exactly one error count. -/
theorem c7_fault_isolation_witness :
    (ErpSync.processItem badItem (ErpSync.syncItems [] [badDoc] 0).1 0).2.2
        = some .typeError ∧
    ErpSync.syncItems ([] ++ badItem :: [goodItem]) [badDoc] 0
      = ((ErpSync.syncItems ([] ++ [goodItem]) [badDoc] 0).1,
         (ErpSync.syncItems ([] ++ [goodItem]) [badDoc] 0).2.add
           { checked := 1, errors := 1 }) ∧
    (SqlSync.processItem badItem
      (SqlSync.syncQuantitiesOnly [] [badDoc] 0).1 0).2.2
        = some .typeError ∧
    SqlSync.syncQuantitiesOnly ([] ++ badItem :: [goodItem]) [badDoc] 0
      = ((SqlSync.syncQuantitiesOnly ([] ++ [goodItem]) [badDoc] 0).1,
         (SqlSync.syncQuantitiesOnly ([] ++ [goodItem]) [badDoc] 0).2.add
           { errors := 1 }) :=
  ⟨by simp only [syncItems_eq_foldl]; decide,
   c7_fault_isolation.1 [] [goodItem] badItem [badDoc] 0 .typeError
     (by simp only [syncItems_eq_foldl]; decide),
   by decide,
   c7_fault_isolation.2 [] [goodItem] badItem [badDoc] 0 .typeError
     (by decide)⟩

/-- Counterexample for C5 as stated: syncing the unknown key "N1" whose
source record carries `mrp = 100` through the erp create path produces a
document whose `mrp` enrichment field holds 100, not null/empty. -/
theorem c5_counterexample :
    (findOne (ErpSync.processItem mrpItem [] 2).1 "N1").map
      (fun d => getField d "mrp") = some (some (.num 100)) ∧
    some (some (BsonValue.num 100)) ≠ some (some BsonValue.null) := by
  decide

/-- C5 (corrected): creation for an unknown key inserts a document with
`serial_number`, `hsn_code`, `location` and `condition` null, the
data-complete flag false, the authoritative quantity equal to the source
quantity, and counts the item as created — but only the sql_sync_service
variant also leaves `mrp` null; the erp_sync_service variant copies `mrp`
from the source record (0.0 when the source has none). -/
theorem c5_create_enrichment :
    (∀ (it : SqlItem) (db : Collection) (now : Nat),
       findOne db it.item_code = none →
       SqlSync.processItem it db now
         = (insertOne db (SqlSync.newItemDoc it it.stock_qty now),
            { items_created := 1, items_checked := 1 }, none) ∧
       findOne (SqlSync.processItem it db now).1 it.item_code
         = some (SqlSync.newItemDoc it it.stock_qty now) ∧
       getField (SqlSync.newItemDoc it it.stock_qty now) "serial_number"
         = some .null ∧
       getField (SqlSync.newItemDoc it it.stock_qty now) "mrp" = some .null ∧
       getField (SqlSync.newItemDoc it it.stock_qty now) "hsn_code"
         = some .null ∧
       getField (SqlSync.newItemDoc it it.stock_qty now) "location"
         = some .null ∧
       getField (SqlSync.newItemDoc it it.stock_qty now) "condition"
         = some .null ∧
       getField (SqlSync.newItemDoc it it.stock_qty now) "data_complete"
         = some (.bool false) ∧
       getField (SqlSync.newItemDoc it it.stock_qty now) "stock_qty"
         = some (.num it.stock_qty)) ∧
    (∀ (it : SqlItem) (db : Collection) (now : Nat),
       it.item_code ≠ "" →
       findOne db it.item_code = none →
       ErpSync.processItem it db now
         = (insertOne db (ErpSync.newItemDoc it it.stock_qty now),
            { checked := 1, created := 1 }, none) ∧
       findOne (ErpSync.processItem it db now).1 it.item_code
         = some (ErpSync.newItemDoc it it.stock_qty now) ∧
       getField (ErpSync.newItemDoc it it.stock_qty now) "serial_number"
         = some .null ∧
       getField (ErpSync.newItemDoc it it.stock_qty now) "mrp"
         = some (.num (it.mrp.getD 0)) ∧
       getField (ErpSync.newItemDoc it it.stock_qty now) "hsn_code"
         = some .null ∧
       getField (ErpSync.newItemDoc it it.stock_qty now) "location"
         = some .null ∧
       getField (ErpSync.newItemDoc it it.stock_qty now) "condition"
         = some .null ∧
       getField (ErpSync.newItemDoc it it.stock_qty now) "data_complete"
         = some (.bool false) ∧
       getField (ErpSync.newItemDoc it it.stock_qty now) "sql_server_qty"
         = some (.num it.stock_qty)) := by
  constructor
  · intro it db now hf
    have hproc := sql_processItem_create it db now hf
    refine ⟨hproc, ?_, ?_, ?_, ?_, ?_, ?_, ?_, ?_⟩
    · rw [hproc]
      show findOne (insertOne db (SqlSync.newItemDoc it it.stock_qty now))
          it.item_code = _
      rw [findOne_insertOne, hf, sql_newItemDoc_code, if_pos rfl]
      rfl
    all_goals simp [SqlSync.newItemDoc, getField_cons]
  · intro it db now h0 hf
    have hproc := erp_processItem_create it db now h0 hf
    refine ⟨hproc, ?_, ?_, ?_, ?_, ?_, ?_, ?_, ?_⟩
    · rw [hproc]
      show findOne (insertOne db (ErpSync.newItemDoc it it.stock_qty now))
          it.item_code = _
      rw [findOne_insertOne, hf, erp_newItemDoc_code, if_pos rfl]
      rfl
    all_goals simp [ErpSync.newItemDoc, getField_cons]

/-- Witness for C5: concrete creations — a plain item through the sql path
(all enrichment fields null) and the mrp-carrying item through the erp path
(mrp copied from the source). -/
theorem c5_create_enrichment_witness :
    SqlSync.processItem goodItem [] 2
      = (insertOne [] (SqlSync.newItemDoc goodItem 2 2),
         { items_created := 1, items_checked := 1 }, none) ∧
    getField (SqlSync.newItemDoc goodItem 2 2) "mrp" = some .null ∧
    getField (ErpSync.newItemDoc mrpItem 3 2) "mrp" = some (.num 100) := by
  refine ⟨?_, ?_, ?_⟩
  · exact ((c5_create_enrichment.1 goodItem [] 2 (by decide)).1).trans (by decide)
  · exact ((c5_create_enrichment.1 goodItem [] 2 (by decide)).2.2.2.1).trans
      (by decide)
  · exact ((c5_create_enrichment.2 mrpItem [] 2 (by decide)
      (by decide)).2.2.2.1).trans (by decide)

/-- Counterexample for C6 as stated: the cached fallback of the single-item
check tags its result `source = "mongodb_cache"`, not `"cached"`. -/
theorem c6_counterexample :
    ((SqlSync.checkItemQtyRealtime false (fun _ => none) "X1" [scenCDoc]
      4).2.1.map SqlSync.RtResult.source) = some "mongodb_cache" ∧
    some "mongodb_cache" ≠ some "cached" := by
  decide

/-- C6 (corrected: the source tag literal is "mongodb_cache", not "cached"):
when the connection test fails and a document exists for the key, the
single-item check returns the stored quantity with `updated = false` and
`source = "mongodb_cache"`, raises no exception, and writes to neither
store (the collection is returned unchanged). -/
theorem c6_cached_fallback (getItem : String → Option SqlItem)
    (item_code : String) (db : Collection) (now : Nat) (d : Doc)
    (hf : findOne db item_code = some d) :
    SqlSync.checkItemQtyRealtime false getItem item_code db now
      = (db,
         some { item_code := item_code
                sql_qty := getField d "stock_qty"
                updated := false
                source := "mongodb_cache"
                message := "SQL Server unavailable, using cached data" },
         none) := by
  simp [SqlSync.checkItemQtyRealtime, hf]

/-- Witness for C6: spec Scenario C — source unreachable, cached document
with quantity 8 — returns quantity 8, `updated = false`, tagged
"mongodb_cache", with no exception and no write. -/
theorem c6_cached_fallback_witness :
    findOne [scenCDoc] "X1" = some scenCDoc ∧
    SqlSync.checkItemQtyRealtime false (fun _ => none) "X1" [scenCDoc] 4
      = ([scenCDoc],
         some { item_code := "X1"
                sql_qty := some (.num 8)
                updated := false
                source := "mongodb_cache"
                message := "SQL Server unavailable, using cached data" },
         none) :=
  ⟨by decide,
   (c6_cached_fallback (fun _ => none) "X1" [scenCDoc] 4 scenCDoc
     (by decide)).trans (by decide)⟩

/-- C10 (confirmed): a source record whose item code is empty (an absent
code is read as the empty default) contributes exactly one error count to a
full-sync run and nothing else: the document store is left untouched (the
guard precedes the store read in `_process_item`) and every other item's
contribution, in its own batch and in all others, is unchanged. -/
theorem c10_empty_code_error (pre post : List SqlItem) (j : SqlItem)
    (db : Collection) (now : Nat) (h : j.item_code = "") :
    ErpSync.syncItems (pre ++ j :: post) db now
      = ((ErpSync.syncItems (pre ++ post) db now).1,
         (ErpSync.syncItems (pre ++ post) db now).2.add { errors := 1 }) := by
  simp only [syncItems_eq_foldl]
  rw [List.foldl_append, List.foldl_append, List.foldl_cons]
  generalize pre.foldl (ErpSync.stepItem now) (db, ({} : ErpDelta)) = P
  have hstep : ErpSync.stepItem now P j = (P.1, P.2.add { errors := 1 }) := by
    simp only [ErpSync.stepItem, erp_processItem_empty j P.1 now h,
      ErpSync.caught]
    rfl
  rw [hstep]
  rw [erp_foldl_split now post (P.1, P.2.add { errors := 1 }),
    erp_foldl_split now post P]
  refine Prod.ext rfl ?_
  show (P.2.add { errors := 1 }).add
      (post.foldl (ErpSync.stepItem now) (P.1, {})).2
    = (P.2.add (post.foldl (ErpSync.stepItem now) (P.1, {})).2).add
      { errors := 1 }
  rw [erpDelta_add_assoc, erpDelta_add_assoc,
    erpDelta_add_comm { errors := 1 }
      ((post.foldl (ErpSync.stepItem now) (P.1, {})).2)]

/-- Witness for C10: an empty-code record inserted into a concrete run
contributes exactly one error and nothing else. -/
theorem c10_empty_code_error_witness :
    ErpSync.syncItems ([] ++ ({ item_code := "" } : SqlItem) :: [goodItem])
      [] 0
      = ((ErpSync.syncItems ([] ++ [goodItem]) [] 0).1,
         (ErpSync.syncItems ([] ++ [goodItem]) [] 0).2.add { errors := 1 }) :=
  c10_empty_code_error [] [goodItem] { item_code := "" } [] 0 rfl

theorem coInsert_length_le (co : List (Nat × Nat)) (i t : Nat) :
    (Pool.coInsert co i t).length ≤ co.length + 1 := by
  unfold Pool.coInsert
  split
  · simp
  · simp

theorem coRemove_length_le (co : List (Nat × Nat)) (i : Nat) :
    (Pool.coRemove co i).length ≤ co.length :=
  List.length_filter_le _ _

theorem coRemove_length_lt (co : List (Nat × Nat)) (i : Nat)
    (h : co.any (fun p => p.1 == i) = true) :
    (Pool.coRemove co i).length < co.length := by
  induction co with
  | nil => simp at h
  | cons p rest ih =>
    by_cases hp : (p.1 == i) = true
    · have hfalse : (p.1 != i) = false := by simp [bne, hp]
      unfold Pool.coRemove
      simp only [List.filter_cons, hfalse]
      calc (rest.filter (fun p => p.1 != i)).length
          ≤ rest.length := List.length_filter_le _ _
        _ < rest.length + 1 := Nat.lt_succ_self _
    · simp only [List.any_cons, Bool.or_eq_true] at h
      rcases h with h | h
      · exact absurd h hp
      · have htrue : (p.1 != i) = true := by
          simp only [bne]
          simp [hp]
        unfold Pool.coRemove at *
        simp only [List.filter_cons, htrue, List.length_cons]
        exact Nat.succ_lt_succ (ih h)

theorem poolInv_init (cfg : Pool.PoolCfg) (k t0 : Nat)
    (hk : k ≤ cfg.pool_size) : Pool.PoolInv cfg (Pool.initPool k t0) := by
  constructor
  · show k ≤ Pool.capacity cfg
    unfold Pool.capacity
    omega
  · show ((List.range k).map (fun i => (i, t0))).length + 0 ≤ k
    simp

theorem poolInv_closeAll (cfg : Pool.PoolCfg) (s : Pool.PoolState) :
    Pool.PoolInv cfg (Pool.closeAll s) :=
  ⟨Nat.zero_le _, Nat.le_refl 0⟩

theorem poolInv_validateAndRefresh (cfg : Pool.PoolCfg) (s : Pool.PoolState)
    (c0 st0 now : Nat) (valid : Bool) (h1 : s.active ≤ Pool.capacity cfg)
    (h2 : s.idle.length + s.checked_out.length + 1 ≤ s.active) :
    Pool.PoolInv cfg (Pool.validateAndRefresh cfg s c0 st0 now valid).2.2 := by
  unfold Pool.validateAndRefresh
  split
  · constructor
    · show (s.active - 1) + 1 ≤ Pool.capacity cfg
      omega
    · show s.idle.length + (Pool.coInsert
          (Pool.coRemove s.checked_out c0) s.next_id now).length
          ≤ (s.active - 1) + 1
      have e1 := coInsert_length_le (Pool.coRemove s.checked_out c0)
        s.next_id now
      have e2 := coRemove_length_le s.checked_out c0
      omega
  · split
    · constructor
      · show (s.active - 1) + 1 ≤ Pool.capacity cfg
        omega
      · show s.idle.length + (Pool.coInsert
            (Pool.coRemove s.checked_out c0) s.next_id now).length
            ≤ (s.active - 1) + 1
        have e1 := coInsert_length_le (Pool.coRemove s.checked_out c0)
          s.next_id now
        have e2 := coRemove_length_le s.checked_out c0
        omega
    · constructor
      · exact h1
      · show s.idle.length + (Pool.coInsert s.checked_out c0 now).length
          ≤ s.active
        have := coInsert_length_le s.checked_out c0 now
        omega

theorem poolInv_acquire (cfg : Pool.PoolCfg) (s : Pool.PoolState) (now : Nat)
    (valid : Bool) (conn age : Nat) (s' : Pool.PoolState)
    (h : Pool.acquireStep cfg s now valid = .got conn age s')
    (hinv : Pool.PoolInv cfg s) : Pool.PoolInv cfg s' := by
  obtain ⟨h1, h2⟩ := hinv
  unfold Pool.acquireStep at h
  cases hidle : s.idle with
  | nil =>
    rw [hidle] at h
    by_cases hlt : s.active < Pool.capacity cfg
    · rw [if_pos hlt] at h
      injection h with hA hB hC
      subst hC
      constructor
      · show s.active + 1 ≤ Pool.capacity cfg
        omega
      · show s.idle.length
            + (Pool.coInsert s.checked_out s.next_id now).length
            ≤ s.active + 1
        have := coInsert_length_le s.checked_out s.next_id now
        rw [hidle]
        simp only [List.length_nil]
        omega
    · rw [if_neg hlt] at h
      exact absurd h (by simp)
  | cons hd rest =>
    rcases hd with ⟨c0, st0⟩
    rw [hidle] at h
    injection h with hA hB hC
    subst hC
    have hlen : s.idle.length = rest.length + 1 := by rw [hidle]; rfl
    exact poolInv_validateAndRefresh cfg { s with idle := rest } c0 st0 now
      valid h1 (by simp only []; omega)

theorem poolInv_release (cfg : Pool.PoolCfg) (s : Pool.PoolState)
    (conn now : Nat) (valid : Bool) (hinv : Pool.PoolInv cfg s) :
    Pool.PoolInv cfg (Pool.returnConnection cfg s conn now valid) := by
  obtain ⟨h1, h2⟩ := hinv
  unfold Pool.returnConnection
  split
  · exact ⟨h1, h2⟩
  · next hmem =>
    have hmem' : s.checked_out.any (fun p => p.1 == conn) = true :=
      of_not_not hmem
    have hlt := coRemove_length_lt s.checked_out conn hmem'
    split
    · split
      · constructor
        · exact h1
        · show (s.idle ++ [(conn, now)]).length
              + (Pool.coRemove s.checked_out conn).length ≤ s.active
          rw [List.length_append]
          simp only [List.length_cons, List.length_nil]
          omega
      · constructor
        · show s.active - 1 ≤ Pool.capacity cfg
          omega
        · show s.idle.length + (Pool.coRemove
              (Pool.coRemove s.checked_out conn) conn).length
              ≤ s.active - 1
          have := coRemove_length_le (Pool.coRemove s.checked_out conn) conn
          omega
    · constructor
      · show s.active - 1 ≤ Pool.capacity cfg
        omega
      · show s.idle.length + (Pool.coRemove
            (Pool.coRemove s.checked_out conn) conn).length
            ≤ s.active - 1
        have := coRemove_length_le (Pool.coRemove s.checked_out conn) conn
        omega

theorem poolInv_step (cfg : Pool.PoolCfg) (s s' : Pool.PoolState)
    (hstep : Pool.PoolStep cfg s s') (hinv : Pool.PoolInv cfg s) :
    Pool.PoolInv cfg s' := by
  cases hstep with
  | acquire now valid conn age s2 h =>
    exact poolInv_acquire cfg s now valid conn age _ h hinv
  | release conn now valid => exact poolInv_release cfg s conn now valid hinv
  | closeAllStep => exact poolInv_closeAll cfg s

/-- C8 (confirmed): in every state reachable from a freshly constructed pool
by any sequence of acquire, release, recycle-on-acquire and close-all steps,
the active-connection count never exceeds `pool_size + max_overflow`: the
overflow path creates only when the count is strictly below capacity, and a
creation on the recycle/invalid path is preceded by a discard. -/
theorem c8_capacity_bound (cfg : Pool.PoolCfg) (k t0 : Nat)
    (hk : k ≤ cfg.pool_size) (s : Pool.PoolState)
    (hreach : Pool.Reachable cfg k t0 s) :
    s.active ≤ cfg.pool_size + cfg.max_overflow := by
  have hinv : Pool.PoolInv cfg s := by
    induction hreach with
    | refl => exact poolInv_init cfg k t0 hk
    | tail hr hstep ih => exact poolInv_step cfg _ _ hstep ih
  exact hinv.1

/-- Witness for C8: a pool of size 1 with no overflow, after initialization
and one release step, has at most one active connection. -/
theorem c8_capacity_bound_witness :
    (1 ≤ cfgTen.pool_size) ∧
    (Pool.returnConnection cfgTen (Pool.initPool 1 0) 0 3 true).active
      ≤ cfgTen.pool_size + cfgTen.max_overflow :=
  ⟨by decide,
   c8_capacity_bound cfgTen 1 0 (by decide) _
     (Relation.ReflTransGen.tail Relation.ReflTransGen.refl
       (Pool.PoolStep.release (Pool.initPool 1 0) 0 3 true))⟩

/-- Counterexample for C9 as stated: with the configured recycle threshold 0
(falsy in Python, so recycling is disabled) an acquire at tick 100 returns
the pooled connection created at tick 0 — age 100 exceeds the threshold.
Moreover, even with the positive threshold 10, after the connection is
released at tick 9 (which refreshes the pool timestamp) an acquire at tick
15 returns connection 0 created at tick 0 — true age 15 exceeds the
threshold while the recorded stamp age is only 6. -/
theorem c9_counterexample :
    Pool.acqConn (Pool.acquireStep cfgZero (Pool.initPool 1 0) 100 true)
      = some 0 ∧
    Pool.acqAge (Pool.acquireStep cfgZero (Pool.initPool 1 0) 100 true)
      = some 100 ∧
    Pool.createdAtOf (Pool.initPool 1 0) 0 = some 0 ∧
    100 - 0 > cfgZero.recycle ∧
    Pool.acquireStep cfgTen (Pool.initPool 1 0) 5 true
      = .got 0 5 poolAfterAcq ∧
    Pool.acqConn (Pool.acquireStep cfgTen poolAfterRel 15 true) = some 0 ∧
    Pool.createdAtOf poolAfterRel 0 = some 0 ∧
    15 - 0 > cfgTen.recycle ∧
    Pool.acqAge (Pool.acquireStep cfgTen poolAfterRel 15 true) = some 6 := by
  decide

/-- C9 (corrected: true only for a positive recycle threshold — threshold 0
disables recycling — and for the age measured from the pool-recorded
timestamp, which is refreshed each time a connection re-enters the idle
queue on release, so it is the time since last check-in, not since
creation): an acquire pass never hands out a connection whose recorded
stamp age exceeds the threshold; connections created on the recycle,
invalid and overflow paths are fresh (age 0). -/
theorem c9_acquire_age_bound (cfg : Pool.PoolCfg) (s : Pool.PoolState)
    (now : Nat) (valid : Bool) (conn age : Nat) (s' : Pool.PoolState)
    (hrec : 0 < cfg.recycle)
    (h : Pool.acquireStep cfg s now valid = .got conn age s') :
    age ≤ cfg.recycle := by
  unfold Pool.acquireStep at h
  cases hidle : s.idle with
  | nil =>
    rw [hidle] at h
    by_cases hlt : s.active < Pool.capacity cfg
    · rw [if_pos hlt] at h
      injection h with hA hB hC
      rw [← hB]
      exact Nat.zero_le _
    · rw [if_neg hlt] at h
      exact absurd h (by simp)
  | cons hd rest =>
    rcases hd with ⟨c0, st0⟩
    rw [hidle] at h
    injection h with hA hB hC
    rw [← hB]
    unfold Pool.validateAndRefresh
    split
    · exact Nat.zero_le _
    · split
      · exact Nat.zero_le _
      · next hcond _ =>
        show now - st0 ≤ cfg.recycle
        by_contra hgt
        exact hcond ⟨by omega, by omega⟩

/-- Witness for C9: with the positive threshold 10 the acquire at tick 15
returns a connection whose recorded stamp age 6 is within the threshold. -/
theorem c9_acquire_age_bound_witness :
    (0 < cfgTen.recycle) ∧
    Pool.acquireStep cfgTen poolAfterRel 15 true
      = .got 0 6 { idle := [], checked_out := [(0, 15)], active := 1,
                   next_id := 1, createdAt := [(0, 0)] } ∧
    6 ≤ cfgTen.recycle :=
  ⟨by decide, by decide,
   c9_acquire_age_bound cfgTen poolAfterRel 15 true 0 6
     { idle := [], checked_out := [(0, 15)], active := 1, next_id := 1,
       createdAt := [(0, 0)] }
     (by decide) (by decide)⟩

end StockSync
